import Mathlib

/-!
Verification development for the bendcuts CAD analyzer and pricing calculator.

The definitions below are a shallow embedding of the TypeScript source:
* `src/unnamed/part_004` (the pricing calculator `calculateQuote` and its helpers);
* `src/app/configure/components/QuoteDisplay.tsx` (the CAD parsing dispatcher,
  unit resolver, geometry analyzer, centerline-length estimators and bend analyzer).

Modelling conventions, used consistently below:
* JavaScript numbers are idealized as exact rationals (pricing, where only
  `+ - *` and one division occur) or as real numbers (geometry).  Where an
  IEEE special value (NaN / Infinity) is actually reachable and observable,
  the operation is modelled explicitly on the `QNum` / `JsNum` types, which
  carry the special values.
* JavaScript `Array`s become `List`s, in-place loops become folds, and
  `undefined`-able fields become `Option`s.
* JavaScript string truthiness (`""` is falsy) is modelled by explicit
  emptiness tests where the source relies on it.
-/

/-! ## JavaScript-style rational numbers with IEEE special values

`QNum` models the result of a JavaScript arithmetic operation that can
produce a special value.  In the pricing calculator the only such operation
is the division `total / quantity`. -/

inductive QNum where
  | fin (q : ℚ)
  | posInf
  | negInf
  | nan
  deriving DecidableEq, Repr

/-- JavaScript division on idealized numbers: division by zero yields a
signed infinity (or NaN for `0 / 0`), exactly as IEEE-754 does. -/
def qDiv (a b : ℚ) : QNum :=
  if b ≠ 0 then .fin (a / b)
  else if 0 < a then .posInf
  else if a < 0 then .negInf
  else .nan

/-- A `QNum` is a finite number. -/
def QNum.isFinite : QNum → Prop
  | .fin _ => True
  | _ => False

instance : DecidablePred QNum.isFinite := fun n => by
  cases n <;> simp [QNum.isFinite] <;> infer_instance

/-- A `QNum` is a non-negative finite number. -/
def QNum.nonneg : QNum → Prop
  | .fin q => 0 ≤ q
  | _ => False

/-! ## Pricing calculator (`src/unnamed/part_004`)

The pricing code never overflows or divides by zero except in
`pricePerPart`, so all intermediate values are plain rationals and only
`pricePerPart` is a `QNum`. -/

structure Material where
  id : String
  name : String
  pricePerLb : ℚ
  deriving Repr

structure QuoteInputs where
  material : Material
  quantity : ℚ
  gauge : String
  length : ℚ
  bends : ℚ
  cuts : ℚ
  deriving Repr

structure QuoteDetails where
  materialWeight : ℚ
  bendingRate : ℚ
  cuttingRate : ℚ
  setupRate : ℚ
  laborHours : ℚ
  laborRate : ℚ
  deriving Repr

structure QuoteBreakdown where
  materialCost : ℚ
  bendingCost : ℚ
  cuttingCost : ℚ
  setupCost : ℚ
  laborCost : ℚ
  subtotal : ℚ
  tax : ℚ
  total : ℚ
  pricePerPart : QNum
  details : QuoteDetails
  deriving Repr

/-- `PRICING_CONSTANTS.materialWeights` lookup (lbs per inch per gauge key). -/
def materialWeights (key : String) : Option ℚ :=
  if key = "16 AWG" then some 0.15
  else if key = "14 AWG" then some 0.19
  else if key = "12 AWG" then some 0.25
  else if key = "10 AWG" then some 0.32
  else if key = "8 AWG" then some 0.41
  else none

def bendingCostPerBend : ℚ := 15
def cuttingCostPerCut : ℚ := 8
def setupCostConst : ℚ := 75
def laborRateConst : ℚ := 65
def baseTimePerPart : ℚ := 0.25
def timePerBend : ℚ := 0.15
def timePerCut : ℚ := 0.08
def taxRate : ℚ := 0.08875

/-- Is `c` an ASCII decimal digit?  (JavaScript regex `\d`.) -/
def isDigitChar (c : Char) : Bool := c.isDigit

/-- Match the regex `(\d+)\s*AWG` at the start of `cs`, returning the digit
capture.  `\d+` takes the maximal digit run (the alternatives never match
since digits, whitespace and `A` are disjoint), `\s*` the maximal
whitespace run, and then the literal `AWG` must follow. -/
def matchGaugeAt (cs : List Char) : Option (List Char) :=
  let digits := cs.takeWhile isDigitChar
  if digits.isEmpty then none
  else
    let rest := (cs.drop digits.length).dropWhile Char.isWhitespace
    match rest with
    | 'A' :: 'W' :: 'G' :: _ => some digits
    | _ => none

/-- Leftmost match of `(\d+)\s*AWG` in `cs` (JavaScript `String.match`). -/
def findGaugeMatch : List Char → Option (List Char)
  | [] => none
  | c :: cs =>
    match matchGaugeAt (c :: cs) with
    | some digits => some digits
    | none => findGaugeMatch cs

/-- `extractGaugeKey`: the captured digits followed by a space and `AWG`,
or the default key `14 AWG` if the regex does not match. -/
def extractGaugeKey (gauge : String) : String :=
  match findGaugeMatch gauge.data with
  | some digits => String.mk digits ++ " AWG"
  | none => "14 AWG"

/-- `calculateMaterialWeight` helper: weight per inch for a gauge string.
The source writes `materialWeights[gaugeKey] || 0.19`; since every table
entry is nonzero, that is the same as defaulting absent keys to `0.19`. -/
def weightPerInch (gauge : String) : ℚ :=
  (materialWeights (extractGaugeKey gauge)).getD 0.19

/-- `calculateMaterialWeight(length, gauge)`. -/
def calculateMaterialWeight (length : ℚ) (gauge : String) : ℚ :=
  length * weightPerInch gauge

/-- `getQuantityDiscount(quantity)`. -/
def getQuantityDiscount (quantity : ℚ) : ℚ :=
  if quantity ≥ 101 then 0.15
  else if quantity ≥ 51 then 0.10
  else if quantity ≥ 11 then 0.05
  else 0

/-- `calculateQuote(inputs)` from `src/unnamed/part_004`, lines 100-171. -/
def calculateQuote (inputs : QuoteInputs) : QuoteBreakdown :=
  let materialWeight := calculateMaterialWeight inputs.length inputs.gauge
  let materialCostPerPart := materialWeight * inputs.material.pricePerLb
  let totalMaterialCost := materialCostPerPart * inputs.quantity
  let bendingCostPerPart := inputs.bends * bendingCostPerBend
  let totalBendingCost := bendingCostPerPart * inputs.quantity
  let cuttingCostPerPart := inputs.cuts * cuttingCostPerCut
  let totalCuttingCost := cuttingCostPerPart * inputs.quantity
  let laborTimePerPart := baseTimePerPart + inputs.bends * timePerBend +
    inputs.cuts * timePerCut
  let totalLaborHours := laborTimePerPart * inputs.quantity
  let totalLaborCost := totalLaborHours * laborRateConst
  let setupCost := setupCostConst
  let subtotalBeforeDiscount := totalMaterialCost + totalBendingCost +
    totalCuttingCost + totalLaborCost + setupCost
  let discount := getQuantityDiscount inputs.quantity
  let discountAmount := subtotalBeforeDiscount * discount
  let subtotal := subtotalBeforeDiscount - discountAmount
  let tax := subtotal * taxRate
  let total := subtotal + tax
  let pricePerPart := qDiv total inputs.quantity
  { materialCost := totalMaterialCost
    bendingCost := totalBendingCost
    cuttingCost := totalCuttingCost
    setupCost := setupCost
    laborCost := totalLaborCost
    subtotal := subtotal
    tax := tax
    total := total
    pricePerPart := pricePerPart
    details :=
      { materialWeight := materialWeight
        bendingRate := bendingCostPerBend
        cuttingRate := cuttingCostPerCut
        setupRate := setupCost
        laborHours := totalLaborHours
        laborRate := laborRateConst } }

/-- Round a rational to 2 decimals, half away from zero for positive values
(JavaScript `toFixed(2)` on the values reached in the scenarios below). -/
def round2 (q : ℚ) : ℚ := (round (q * 100) : ℤ) / 100

/-- Helper: weight-per-inch is one of the five positive table constants. -/
theorem weightPerInch_pos (gauge : String) : 0 < weightPerInch gauge := by
  unfold weightPerInch materialWeights
  repeat' split
  all_goals norm_num

/-- Helper: quantity discounts lie in `[0, 0.15]`. -/
theorem getQuantityDiscount_mem (q : ℚ) :
    0 ≤ getQuantityDiscount q ∧ getQuantityDiscount q ≤ 0.15 := by
  unfold getQuantityDiscount
  split <;> norm_num
  split <;> norm_num
  split <;> norm_num

/-- Per-part variable cost (material + bending + cutting + labor), used to
state closed forms of `calculateQuote`. -/
def perPartCost (i : QuoteInputs) : ℚ :=
  calculateMaterialWeight i.length i.gauge * i.material.pricePerLb +
    i.bends * bendingCostPerBend + i.cuts * cuttingCostPerCut +
    (baseTimePerPart + i.bends * timePerBend + i.cuts * timePerCut) * laborRateConst

/-- Closed form of the returned total. -/
theorem calculateQuote_total (i : QuoteInputs) :
    (calculateQuote i).total =
      (1 - getQuantityDiscount i.quantity) *
        (perPartCost i * i.quantity + setupCostConst) * (1 + taxRate) := by
  simp only [calculateQuote, perPartCost]
  ring

/-- Helper: the per-part cost is non-negative for non-negative inputs. -/
theorem perPartCost_nonneg (i : QuoteInputs) (hp : 0 ≤ i.material.pricePerLb)
    (hl : 0 ≤ i.length) (hb : 0 ≤ i.bends) (hc : 0 ≤ i.cuts) :
    0 ≤ perPartCost i := by
  have hw := (weightPerInch_pos i.gauge).le
  unfold perPartCost calculateMaterialWeight bendingCostPerBend cuttingCostPerCut
    baseTimePerPart timePerBend timePerCut laborRateConst
  positivity

/-- Helper evaluation: the gauge key extracted from the scenario string. -/
theorem extractGaugeKey_14AWG : extractGaugeKey "14 AWG" = "14 AWG" := by decide

/-- Helper evaluation: weight per inch of 14 AWG stock. -/
theorem weightPerInch_14AWG : weightPerInch "14 AWG" = 0.19 := by
  rw [weightPerInch, extractGaugeKey_14AWG]
  norm_num [materialWeights]
  rw [if_neg (by decide)]
  rfl

/-- Helper: monotonicity of the total in the per-part cost, at fixed
discount and quantity. -/
theorem totalShape_mono_cost (d A₁ A₂ q k : ℚ) (hd : d ≤ 1) (hq : 0 ≤ q)
    (hk : 0 ≤ k) (hA : A₁ ≤ A₂) :
    (1 - d) * (A₁ * q + setupCostConst) * k ≤
      (1 - d) * (A₂ * q + setupCostConst) * k := by
  have h1 : (0:ℚ) ≤ 1 - d := by linarith
  have h2 : A₁ * q + setupCostConst ≤ A₂ * q + setupCostConst := by
    have := mul_le_mul_of_nonneg_right hA hq
    linarith
  exact mul_le_mul_of_nonneg_right (mul_le_mul_of_nonneg_left h2 h1) hk

/-- Helper: monotonicity of the total in the quantity, at fixed discount
and per-part cost. -/
theorem totalShape_mono_qty (d A q₁ q₂ k : ℚ) (hd : d ≤ 1) (hA : 0 ≤ A)
    (hk : 0 ≤ k) (hq : q₁ ≤ q₂) :
    (1 - d) * (A * q₁ + setupCostConst) * k ≤
      (1 - d) * (A * q₂ + setupCostConst) * k := by
  have h1 : (0:ℚ) ≤ 1 - d := by linarith
  have h2 : A * q₁ + setupCostConst ≤ A * q₂ + setupCostConst := by
    have := mul_le_mul_of_nonneg_left hq hA
    linarith
  exact mul_le_mul_of_nonneg_right (mul_le_mul_of_nonneg_left h2 h1) hk

/-- Helper: the per-part cost is monotone in the bend count. -/
theorem perPartCost_mono_bends (i : QuoteInputs) (b₂ : ℚ) (h : i.bends ≤ b₂) :
    perPartCost i ≤ perPartCost { i with bends := b₂ } := by
  simp only [perPartCost, calculateMaterialWeight]
  norm_num [bendingCostPerBend, cuttingCostPerCut, baseTimePerPart,
    timePerBend, timePerCut, laborRateConst]
  nlinarith [h]

/-- Helper: the per-part cost is monotone in the cut count. -/
theorem perPartCost_mono_cuts (i : QuoteInputs) (c₂ : ℚ) (h : i.cuts ≤ c₂) :
    perPartCost i ≤ perPartCost { i with cuts := c₂ } := by
  simp only [perPartCost, calculateMaterialWeight]
  norm_num [bendingCostPerBend, cuttingCostPerCut, baseTimePerPart,
    timePerBend, timePerCut, laborRateConst]
  nlinarith [h]

/-- Helper: the per-part cost is monotone in the length for a
non-negative material price. -/
theorem perPartCost_mono_length (i : QuoteInputs) (l₂ : ℚ)
    (hp : 0 ≤ i.material.pricePerLb) (h : i.length ≤ l₂) :
    perPartCost i ≤ perPartCost { i with length := l₂ } := by
  simp only [perPartCost, calculateMaterialWeight]
  have hw := (weightPerInch_pos i.gauge).le
  have key := mul_le_mul_of_nonneg_right
    (mul_le_mul_of_nonneg_right h hw) hp
  linarith

/-- C2 counterexample: with all other inputs fixed (the material, gauge,
length, bends and cuts of the C6 scenario), raising the quantity from 50
to 51 lowers the returned total, because the quantity discount jumps from
5 percent to 10 percent at 51. -/
theorem c2_total_not_monotone_in_quantity :
    (⟨⟨"ss304", "Stainless", 4.75⟩, 50, "14 AWG", 48, 3, 2⟩ : QuoteInputs).quantity ≤
      (⟨⟨"ss304", "Stainless", 4.75⟩, 51, "14 AWG", 48, 3, 2⟩ : QuoteInputs).quantity ∧
    (calculateQuote ⟨⟨"ss304", "Stainless", 4.75⟩, 51, "14 AWG", 48, 3, 2⟩).total <
      (calculateQuote ⟨⟨"ss304", "Stainless", 4.75⟩, 50, "14 AWG", 48, 3, 2⟩).total := by
  constructor
  · norm_num
  · rw [calculateQuote_total, calculateQuote_total]
    norm_num [perPartCost, getQuantityDiscount, calculateMaterialWeight,
      weightPerInch_14AWG, bendingCostPerBend, cuttingCostPerCut, setupCostConst,
      laborRateConst, baseTimePerPart, timePerBend, timePerCut, taxRate]

/-- C2 (amended): holding all other inputs fixed, the total returned by
`calculateQuote` is non-decreasing in each of `bends`, `cuts` and `length`;
it is non-decreasing in `quantity` only between quantities that receive the
same quantity discount (crossing the 51- or 101-part discount boundary can
lower the total, as the counterexample shows). -/
theorem c2_total_monotone_amended (i : QuoteInputs)
    (hp : 0 ≤ i.material.pricePerLb) (hq : 0 ≤ i.quantity)
    (hl : 0 ≤ i.length) (hb : 0 ≤ i.bends) (hc : 0 ≤ i.cuts) :
    (∀ b₂, i.bends ≤ b₂ →
      (calculateQuote i).total ≤ (calculateQuote { i with bends := b₂ }).total) ∧
    (∀ c₂, i.cuts ≤ c₂ →
      (calculateQuote i).total ≤ (calculateQuote { i with cuts := c₂ }).total) ∧
    (∀ l₂, i.length ≤ l₂ →
      (calculateQuote i).total ≤ (calculateQuote { i with length := l₂ }).total) ∧
    (∀ q₂, i.quantity ≤ q₂ →
      getQuantityDiscount i.quantity = getQuantityDiscount q₂ →
      (calculateQuote i).total ≤ (calculateQuote { i with quantity := q₂ }).total) := by
  have hd := getQuantityDiscount_mem i.quantity
  have hd1 : getQuantityDiscount i.quantity ≤ 1 := by linarith [hd.2]
  have htax : (0:ℚ) ≤ 1 + taxRate := by norm_num [taxRate]
  refine ⟨fun b₂ hb₂ => ?_, fun c₂ hc₂ => ?_, fun l₂ hl₂ => ?_,
    fun q₂ hq₂ hdisc => ?_⟩
  · rw [calculateQuote_total, calculateQuote_total]
    exact totalShape_mono_cost _ _ _ _ _ hd1 hq htax
      (perPartCost_mono_bends i b₂ hb₂)
  · rw [calculateQuote_total, calculateQuote_total]
    exact totalShape_mono_cost _ _ _ _ _ hd1 hq htax
      (perPartCost_mono_cuts i c₂ hc₂)
  · rw [calculateQuote_total, calculateQuote_total]
    exact totalShape_mono_cost _ _ _ _ _ hd1 hq htax
      (perPartCost_mono_length i l₂ hp hl₂)
  · rw [calculateQuote_total, calculateQuote_total]
    have hppc : perPartCost { i with quantity := q₂ } = perPartCost i := rfl
    simp only [hppc]
    rw [← hdisc]
    exact totalShape_mono_qty _ _ _ _ _ hd1
      (perPartCost_nonneg i hp hl hb hc) htax hq₂

/-- C2 witness: the amended monotonicity theorem applied at a concrete
input (quantity 5, one bend added). -/
theorem c2_total_monotone_amended_witness :
    ((0:ℚ) ≤ 4.75 ∧ (0:ℚ) ≤ 5 ∧ (0:ℚ) ≤ 48 ∧ (0:ℚ) ≤ 3 ∧ (0:ℚ) ≤ 2 ∧ (3:ℚ) ≤ 4) ∧
    (calculateQuote ⟨⟨"ss304", "Stainless", 4.75⟩, 5, "14 AWG", 48, 3, 2⟩).total ≤
      (calculateQuote ⟨⟨"ss304", "Stainless", 4.75⟩, 5, "14 AWG", 48, 4, 2⟩).total :=
  ⟨by norm_num,
    (c2_total_monotone_amended ⟨⟨"ss304", "Stainless", 4.75⟩, 5, "14 AWG", 48, 3, 2⟩
      (by norm_num) (by norm_num) (by norm_num) (by norm_num) (by norm_num)).1
      4 (by norm_num)⟩

/-- C6: the concrete pricing scenario.  With material price 4.75 per lb,
gauge `14 AWG`, length 48 in, 3 bends, 2 cuts and quantity 10,
`calculateQuote` returns material weight 9.12 lb, material cost 433.20,
bending 450, cutting 160, labor hours 8.6, labor 559.00, setup 75,
subtotal 1677.20 with no discount at quantity 10, tax 148.85, total
1826.05 and price per part 182.61, each at 2-decimal rounding. -/
theorem c6_pricing_scenario :
    (calculateQuote ⟨⟨"ss304", "Stainless", 4.75⟩, 10, "14 AWG", 48, 3, 2⟩).details.materialWeight
        = 9.12 ∧
    round2 (calculateQuote ⟨⟨"ss304", "Stainless", 4.75⟩, 10, "14 AWG", 48, 3, 2⟩).materialCost
        = 433.20 ∧
    round2 (calculateQuote ⟨⟨"ss304", "Stainless", 4.75⟩, 10, "14 AWG", 48, 3, 2⟩).bendingCost
        = 450 ∧
    round2 (calculateQuote ⟨⟨"ss304", "Stainless", 4.75⟩, 10, "14 AWG", 48, 3, 2⟩).cuttingCost
        = 160 ∧
    (calculateQuote ⟨⟨"ss304", "Stainless", 4.75⟩, 10, "14 AWG", 48, 3, 2⟩).details.laborHours
        = 8.6 ∧
    round2 (calculateQuote ⟨⟨"ss304", "Stainless", 4.75⟩, 10, "14 AWG", 48, 3, 2⟩).laborCost
        = 559.00 ∧
    (calculateQuote ⟨⟨"ss304", "Stainless", 4.75⟩, 10, "14 AWG", 48, 3, 2⟩).setupCost = 75 ∧
    round2 (calculateQuote ⟨⟨"ss304", "Stainless", 4.75⟩, 10, "14 AWG", 48, 3, 2⟩).subtotal
        = 1677.20 ∧
    getQuantityDiscount 10 = 0 ∧
    round2 (calculateQuote ⟨⟨"ss304", "Stainless", 4.75⟩, 10, "14 AWG", 48, 3, 2⟩).tax
        = 148.85 ∧
    round2 (calculateQuote ⟨⟨"ss304", "Stainless", 4.75⟩, 10, "14 AWG", 48, 3, 2⟩).total
        = 1826.05 ∧
    (calculateQuote ⟨⟨"ss304", "Stainless", 4.75⟩, 10, "14 AWG", 48, 3, 2⟩).pricePerPart
        = QNum.fin 182.60515 ∧
    round2 182.60515 = 182.61 := by
  simp only [calculateQuote, calculateMaterialWeight, weightPerInch_14AWG, qDiv]
  norm_num [round2, round_eq, getQuantityDiscount, bendingCostPerBend,
    cuttingCostPerCut, setupCostConst, laborRateConst, baseTimePerPart,
    timePerBend, timePerCut, taxRate]

/-- C10: `calculateQuote` does not validate the quantity.  For quantity at
least 1 and finite non-negative price, length, bends and cuts, every
returned monetary field is finite and non-negative; for quantity 0 the
returned price per part is the total divided by zero, which is not a
finite number (the total is positive, so the division yields infinity). -/
theorem c10_no_quantity_validation (i : QuoteInputs)
    (hp : 0 ≤ i.material.pricePerLb) (hl : 0 ≤ i.length)
    (hb : 0 ≤ i.bends) (hc : 0 ≤ i.cuts) :
    ((1 ≤ i.quantity →
      0 ≤ (calculateQuote i).materialCost ∧
      0 ≤ (calculateQuote i).bendingCost ∧
      0 ≤ (calculateQuote i).cuttingCost ∧
      0 ≤ (calculateQuote i).setupCost ∧
      0 ≤ (calculateQuote i).laborCost ∧
      0 ≤ (calculateQuote i).subtotal ∧
      0 ≤ (calculateQuote i).tax ∧
      0 ≤ (calculateQuote i).total ∧
      (calculateQuote i).pricePerPart.isFinite ∧
      (calculateQuote i).pricePerPart.nonneg) ∧
    (i.quantity = 0 → (calculateQuote i).pricePerPart = QNum.posInf ∧
      ¬ (calculateQuote i).pricePerPart.isFinite)) := by
  have hw := (weightPerInch_pos i.gauge).le
  have hd := getQuantityDiscount_mem i.quantity
  have htaxpos : (0:ℚ) < 1 + taxRate := by norm_num [taxRate]
  have hppc : 0 ≤ perPartCost i := perPartCost_nonneg i hp hl hb hc
  constructor
  · intro hq1
    have hq : (0:ℚ) ≤ i.quantity := by linarith
    have hsub : 0 ≤ (calculateQuote i).subtotal := by
      have : (calculateQuote i).subtotal =
          (1 - getQuantityDiscount i.quantity) *
            (perPartCost i * i.quantity + setupCostConst) := by
        simp only [calculateQuote, perPartCost]
        ring
      rw [this]
      have h1 : (0:ℚ) ≤ 1 - getQuantityDiscount i.quantity := by linarith [hd.2]
      have h2 : (0:ℚ) ≤ perPartCost i * i.quantity + setupCostConst := by
        have := mul_nonneg hppc hq
        norm_num [setupCostConst]
        linarith
      exact mul_nonneg h1 h2
    have htot : 0 ≤ (calculateQuote i).total := by
      have : (calculateQuote i).total =
          (calculateQuote i).subtotal * (1 + taxRate) := by
        simp only [calculateQuote]
        ring
      rw [this]
      exact mul_nonneg hsub htaxpos.le
    refine ⟨?_, ?_, ?_, ?_, ?_, hsub, ?_, htot, ?_, ?_⟩
    · simp only [calculateQuote, calculateMaterialWeight]
      have := mul_nonneg (mul_nonneg (mul_nonneg hl hw) hp) hq
      simpa using this
    · simp only [calculateQuote]
      exact mul_nonneg (mul_nonneg hb (by norm_num [bendingCostPerBend])) hq
    · simp only [calculateQuote]
      exact mul_nonneg (mul_nonneg hc (by norm_num [cuttingCostPerCut])) hq
    · simp only [calculateQuote]
      norm_num [setupCostConst]
    · simp only [calculateQuote]
      have hlab : (0:ℚ) ≤ baseTimePerPart + i.bends * timePerBend +
          i.cuts * timePerCut := by
        have := mul_nonneg hb (by norm_num [timePerBend] : (0:ℚ) ≤ timePerBend)
        have := mul_nonneg hc (by norm_num [timePerCut] : (0:ℚ) ≤ timePerCut)
        norm_num [baseTimePerPart]
        linarith
      exact mul_nonneg (mul_nonneg hlab hq) (by norm_num [laborRateConst])
    · have : (calculateQuote i).tax = (calculateQuote i).subtotal * taxRate := by
        simp only [calculateQuote]
      rw [this]
      exact mul_nonneg hsub (by norm_num [taxRate])
    · have hqne : i.quantity ≠ 0 := by intro h; rw [h] at hq1; norm_num at hq1
      have : (calculateQuote i).pricePerPart =
          QNum.fin ((calculateQuote i).total / i.quantity) := by
        simp only [calculateQuote, qDiv, if_pos hqne]
      rw [this]
      trivial
    · have hqne : i.quantity ≠ 0 := by intro h; rw [h] at hq1; norm_num at hq1
      have : (calculateQuote i).pricePerPart =
          QNum.fin ((calculateQuote i).total / i.quantity) := by
        simp only [calculateQuote, qDiv, if_pos hqne]
      rw [this]
      show 0 ≤ (calculateQuote i).total / i.quantity
      exact div_nonneg htot (by linarith)
  · intro hq0
    have htotpos : 0 < (calculateQuote i).total := by
      have : (calculateQuote i).total =
          (1 - getQuantityDiscount i.quantity) *
            (perPartCost i * i.quantity + setupCostConst) * (1 + taxRate) :=
        calculateQuote_total i
      rw [this, hq0]
      norm_num [getQuantityDiscount, setupCostConst, taxRate]
    have : (calculateQuote i).pricePerPart =
        qDiv (calculateQuote i).total i.quantity := rfl
    rw [this, hq0]
    unfold qDiv
    rw [if_neg (by norm_num), if_pos htotpos]
    exact ⟨rfl, by simp [QNum.isFinite]⟩

/-- C10 witness: the theorem applied at the concrete scenario with
quantity 3. -/
theorem c10_no_quantity_validation_witness :
    ((0:ℚ) ≤ 4.75 ∧ (0:ℚ) ≤ 48 ∧ (0:ℚ) ≤ 3 ∧ (0:ℚ) ≤ 2 ∧
      (1:ℚ) ≤ (3:ℚ)) ∧
    (0 ≤ (calculateQuote ⟨⟨"ss304", "Stainless", 4.75⟩, 3, "14 AWG", 48, 3, 2⟩).total ∧
     (calculateQuote ⟨⟨"ss304", "Stainless", 4.75⟩, 3, "14 AWG", 48, 3, 2⟩).pricePerPart.isFinite) :=
  ⟨by norm_num,
    let h := (c10_no_quantity_validation
      ⟨⟨"ss304", "Stainless", 4.75⟩, 3, "14 AWG", 48, 3, 2⟩
      (by norm_num) (by norm_num) (by norm_num) (by norm_num)).1 (by norm_num)
    ⟨h.2.2.2.2.2.2.2.1, h.2.2.2.2.2.2.2.2.1⟩⟩

/-! ## File-type dispatch (`parseCADFile`, `isSupportedFile`)

`parseCADFile` selects a parser from the lowercased filename extension.
Only the dispatch skeleton is embedded here: the parser bodies are
modelled separately (`parseStepOrIges` below); the dispatcher result
records which parser would run (with the `fileType` argument it would
receive) or the thrown unsupported-format error. -/

/-- The STEP-or-IGES parser is called with one of these two tags. -/
inductive StepIgesKind where
  | step
  | iges
  deriving DecidableEq, Repr

/-- Which parser `parseCADFile` dispatches to. -/
inductive DispatchTarget where
  | stepOrIges (kind : StepIgesKind)
  | dxf
  deriving DecidableEq, Repr

/-- ASCII lowercasing of one character.  (JavaScript `toLowerCase` is
Unicode-aware, but only ASCII matters for the extension set; non-ASCII
characters are left unchanged, as JavaScript also leaves them unchanged
when they have no lowercase mapping.) -/
def asciiLower (c : Char) : Char :=
  if 'A' ≤ c ∧ c ≤ 'Z' then Char.ofNat (c.toNat + 32) else c

/-- `fileName.toLowerCase()` (ASCII idealization). -/
def jsToLower (s : String) : String := String.mk (s.data.map asciiLower)

/-- `split('.')` on a character list: JavaScript semantics, so the empty
string yields `[""]` and a trailing dot yields a trailing empty segment. -/
def splitDotAux : List Char → List (List Char)
  | [] => [[]]
  | c :: cs =>
    let r := splitDotAux cs
    if c = '.' then [] :: r
    else
      match r with
      | [] => [[c]]
      | g :: gs => (c :: g) :: gs

/-- `fileName.toLowerCase().split('.').pop()`: the last dot-separated
segment of the lowercased file name (the whole name when it has no dot;
`split` never returns an empty array, so `pop` never sees one). -/
def getFileExtension (fileName : String) : String :=
  String.mk ((splitDotAux (jsToLower fileName).data).getLastD [])

/-- `getSupportedExtensions()`. -/
def getSupportedExtensions : List String := ["step", "stp", "iges", "igs", "dxf"]

/-- `isSupportedFile(fileName)`. -/
def isSupportedFile (fileName : String) : Bool :=
  getSupportedExtensions.contains (getFileExtension fileName)

/-- The `switch` statement of `parseCADFile` (lines 2480-2494): dispatch on
the lowercased extension, or throw `Unsupported file format`. -/
def parseCADFileDispatch (fileName : String) : Except String DispatchTarget :=
  match getFileExtension fileName with
  | "step" => .ok (.stepOrIges .step)
  | "stp" => .ok (.stepOrIges .step)
  | "iges" => .ok (.stepOrIges .iges)
  | "igs" => .ok (.stepOrIges .iges)
  | "dxf" => .ok .dxf
  | ext => .error ("Unsupported file format: " ++ ext)

/-- C5: file-type dispatch uses the lowercased filename extension.  For
extensions `step`/`stp` the STEP path runs, for `iges`/`igs` the IGES
path, for `dxf` the DXF path; any other extension fails with an
unsupported-format error (no parser runs, hence no geometry), and success
coincides with `isSupportedFile`. -/
theorem c5_extension_dispatch (fileName : String) :
    (getFileExtension fileName = "step" ∨ getFileExtension fileName = "stp" →
      parseCADFileDispatch fileName = .ok (.stepOrIges .step)) ∧
    (getFileExtension fileName = "iges" ∨ getFileExtension fileName = "igs" →
      parseCADFileDispatch fileName = .ok (.stepOrIges .iges)) ∧
    (getFileExtension fileName = "dxf" →
      parseCADFileDispatch fileName = .ok .dxf) ∧
    (getFileExtension fileName ∉ getSupportedExtensions →
      parseCADFileDispatch fileName =
        .error ("Unsupported file format: " ++ getFileExtension fileName)) ∧
    ((∃ t, parseCADFileDispatch fileName = .ok t) ↔ isSupportedFile fileName = true) := by
  unfold parseCADFileDispatch isSupportedFile
  generalize getFileExtension fileName = e
  refine ⟨?_, ?_, ?_, ?_, ?_⟩
  · rintro (h1 | h1) <;> subst h1 <;> rfl
  · rintro (h1 | h1) <;> subst h1 <;> rfl
  · rintro h1; subst h1; rfl
  · intro h1
    simp only [getSupportedExtensions, List.mem_cons, List.not_mem_nil, or_false,
      not_or] at h1
    obtain ⟨n1, n2, n3, n4, n5⟩ := h1
    split
    · exact absurd rfl n1
    · exact absurd rfl n2
    · exact absurd rfl n3
    · exact absurd rfl n4
    · exact absurd rfl n5
    · rfl
  · have hmem : getSupportedExtensions.contains e = true ↔
        e ∈ getSupportedExtensions := by
      simp [List.contains]
    rw [hmem]
    constructor
    · rintro ⟨t, ht⟩
      by_contra hns
      simp only [getSupportedExtensions, List.mem_cons, List.not_mem_nil, or_false,
        not_or] at hns
      obtain ⟨n1, n2, n3, n4, n5⟩ := hns
      revert ht
      split
      · exact absurd rfl n1
      · exact absurd rfl n2
      · exact absurd rfl n3
      · exact absurd rfl n4
      · exact absurd rfl n5
      · intro ht; cases ht
    · intro hs
      simp only [getSupportedExtensions, List.mem_cons, List.not_mem_nil,
        or_false] at hs
      rcases hs with h1 | h1 | h1 | h1 | h1 <;> subst h1 <;> exact ⟨_, rfl⟩

/-- C5 witness: dispatch at concrete file names (an uppercase STEP file
and an unsupported PNG). -/
theorem c5_extension_dispatch_witness :
    (getFileExtension "Bracket.STEP" = "step" ∨ getFileExtension "Bracket.STEP" = "stp") ∧
    parseCADFileDispatch "Bracket.STEP" = .ok (.stepOrIges .step) ∧
    (getFileExtension "photo.png" ∉ getSupportedExtensions) ∧
    parseCADFileDispatch "photo.png" = .error "Unsupported file format: png" :=
  ⟨Or.inl (by decide),
   (c5_extension_dispatch "Bracket.STEP").1 (Or.inl (by decide)),
   by decide,
   by
     have h := (c5_extension_dispatch "photo.png").2.2.2.1 (by decide)
     rw [h]
     have hext : getFileExtension "photo.png" = "png" := by decide
     rw [hext]
     rfl⟩

/-! ## JavaScript real numbers with IEEE special values

`JsNum` models a JavaScript number as an exact real together with the
IEEE-754 special values.  The geometry pipeline is modelled over plain
reals wherever no special value can arise (all mesh coordinates are finite
by the decoder contract, and `three.js` vector operations on finite inputs
return finite results); `JsNum` appears exactly where a NaN or infinity is
reachable: the bounding-box length fallback (`sqrt(0/0)`), the final best
length, and the cross-validation arithmetic on collected lengths. -/

inductive JsNum where
  | fin (x : ℝ)
  | posInf
  | negInf
  | nan

noncomputable section
open Classical

/-- IEEE addition. -/
noncomputable def jsAdd : JsNum → JsNum → JsNum
  | .nan, _ => .nan
  | _, .nan => .nan
  | .fin a, .fin b => .fin (a + b)
  | .fin _, .posInf => .posInf
  | .fin _, .negInf => .negInf
  | .posInf, .fin _ => .posInf
  | .negInf, .fin _ => .negInf
  | .posInf, .posInf => .posInf
  | .negInf, .negInf => .negInf
  | .posInf, .negInf => .nan
  | .negInf, .posInf => .nan

/-- IEEE subtraction. -/
noncomputable def jsSub : JsNum → JsNum → JsNum
  | .nan, _ => .nan
  | _, .nan => .nan
  | .fin a, .fin b => .fin (a - b)
  | .fin _, .posInf => .negInf
  | .fin _, .negInf => .posInf
  | .posInf, .fin _ => .posInf
  | .negInf, .fin _ => .negInf
  | .posInf, .posInf => .nan
  | .negInf, .negInf => .nan
  | .posInf, .negInf => .posInf
  | .negInf, .posInf => .negInf

/-- IEEE multiplication (`0 * inf = NaN`). -/
noncomputable def jsMul : JsNum → JsNum → JsNum
  | .nan, _ => .nan
  | _, .nan => .nan
  | .fin a, .fin b => .fin (a * b)
  | .fin a, .posInf => if 0 < a then .posInf else if a < 0 then .negInf else .nan
  | .fin a, .negInf => if 0 < a then .negInf else if a < 0 then .posInf else .nan
  | .posInf, .fin b => if 0 < b then .posInf else if b < 0 then .negInf else .nan
  | .negInf, .fin b => if 0 < b then .negInf else if b < 0 then .posInf else .nan
  | .posInf, .posInf => .posInf
  | .negInf, .negInf => .posInf
  | .posInf, .negInf => .negInf
  | .negInf, .posInf => .negInf

/-- IEEE division (`x / 0` is a signed infinity, `0 / 0` is NaN). -/
noncomputable def jsDiv : JsNum → JsNum → JsNum
  | .nan, _ => .nan
  | _, .nan => .nan
  | .fin a, .fin b =>
    if b ≠ 0 then .fin (a / b)
    else if 0 < a then .posInf
    else if a < 0 then .negInf
    else .nan
  | .fin _, .posInf => .fin 0
  | .fin _, .negInf => .fin 0
  | .posInf, .fin b => if 0 ≤ b then .posInf else .negInf
  | .negInf, .fin b => if 0 ≤ b then .negInf else .posInf
  | .posInf, _ => .nan
  | .negInf, _ => .nan

/-- `Math.sqrt` (negative arguments yield NaN). -/
noncomputable def jsSqrt : JsNum → JsNum
  | .nan => .nan
  | .fin a => if a < 0 then .nan else .fin (Real.sqrt a)
  | .posInf => .posInf
  | .negInf => .nan

/-- `Math.max` on two arguments (NaN-propagating, as in JavaScript). -/
noncomputable def jsMax : JsNum → JsNum → JsNum
  | .nan, _ => .nan
  | _, .nan => .nan
  | .fin a, .fin b => .fin (max a b)
  | .posInf, _ => .posInf
  | _, .posInf => .posInf
  | .fin a, .negInf => .fin a
  | .negInf, .fin b => .fin b
  | .negInf, .negInf => .negInf

/-- JavaScript `<` on numbers: false whenever either side is NaN. -/
def jsLt : JsNum → JsNum → Prop
  | .nan, _ => False
  | _, .nan => False
  | .fin a, .fin b => a < b
  | .fin _, .posInf => True
  | .fin _, .negInf => False
  | .posInf, .fin _ => False
  | .negInf, .fin _ => True
  | .posInf, .posInf => False
  | .negInf, .negInf => False
  | .negInf, .posInf => True
  | .posInf, .negInf => False

noncomputable instance (a b : JsNum) : Decidable (jsLt a b) := by
  cases a <;> cases b <;> simp only [jsLt] <;> infer_instance

/-- A `JsNum` is a finite number. -/
def JsNum.isFiniteNum : JsNum → Prop
  | .fin _ => True
  | _ => False

/-! ## `three.js` vector and box primitives over exact reals -/

/-- `THREE.Vector3` with exact real coordinates. -/
structure Vec3R where
  x : ℝ
  y : ℝ
  z : ℝ

namespace Vec3R

noncomputable def add (a b : Vec3R) : Vec3R := ⟨a.x + b.x, a.y + b.y, a.z + b.z⟩

noncomputable def sub (a b : Vec3R) : Vec3R := ⟨a.x - b.x, a.y - b.y, a.z - b.z⟩

noncomputable def smul (s : ℝ) (a : Vec3R) : Vec3R := ⟨s * a.x, s * a.y, s * a.z⟩

noncomputable def dot (a b : Vec3R) : ℝ := a.x * b.x + a.y * b.y + a.z * b.z

noncomputable def lengthSq (a : Vec3R) : ℝ := a.dot a

/-- `Vector3.length()`. -/
noncomputable def len (a : Vec3R) : ℝ := Real.sqrt a.lengthSq

/-- `Vector3.distanceTo(b)`. -/
noncomputable def distanceTo (a b : Vec3R) : ℝ := (a.sub b).len

/-- `Vector3.normalize()`: `divideScalar(length() || 1)`, so the zero
vector stays zero. -/
noncomputable def normalize (a : Vec3R) : Vec3R :=
  if a.len = 0 then a else a.smul (1 / a.len)

/-- `Vector3.angleTo(b)`: `π/2` when either vector is zero, otherwise the
arccosine of the clamped normalized dot product. -/
noncomputable def angleTo (a b : Vec3R) : ℝ :=
  let denominator := Real.sqrt (a.lengthSq * b.lengthSq)
  if denominator = 0 then Real.pi / 2
  else Real.arccos (min 1 (max (-1) (a.dot b / denominator)))

def zero : Vec3R := ⟨0, 0, 0⟩

end Vec3R

/-- `THREE.Box3` (a non-empty axis-aligned box). -/
structure Box3R where
  min : Vec3R
  max : Vec3R

/-- `Box3.getSize`. -/
noncomputable def boxSize (b : Box3R) : Vec3R := b.max.sub b.min

/-- Componentwise union of two boxes (`Box3.union` on non-empty boxes). -/
noncomputable def boxUnion (a b : Box3R) : Box3R :=
  ⟨⟨min a.min.x b.min.x, min a.min.y b.min.y, min a.min.z b.min.z⟩,
   ⟨max a.max.x b.max.x, max a.max.y b.max.y, max a.max.z b.max.z⟩⟩

/-- Largest of the three components (`Math.max(v.x, v.y, v.z)`). -/
noncomputable def max3 (v : Vec3R) : ℝ := max v.x (max v.y v.z)

/-- Bounding box of a non-empty point list (`computeBoundingBox`;
the empty list gives a degenerate zero box, a case the callers below
never reach because they bail out on empty or too-small point sets). -/
noncomputable def computeBBox : List Vec3R → Box3R
  | [] => ⟨Vec3R.zero, Vec3R.zero⟩
  | p :: ps =>
    ps.foldl (fun b q =>
      ⟨⟨min b.min.x q.x, min b.min.y q.y, min b.min.z q.z⟩,
       ⟨max b.max.x q.x, max b.max.y q.y, max b.max.z q.z⟩⟩) ⟨p, p⟩

/-- Sum of distances between consecutive points of a polyline. -/
noncomputable def polylineLength (pts : List Vec3R) : ℝ :=
  ((pts.zip pts.tail).map (fun pq => pq.1.distanceTo pq.2)).sum

/-- Mean of a point list (callers guarantee non-emptiness). -/
noncomputable def meanPoint (pts : List Vec3R) : Vec3R :=
  (Vec3R.smul (1 / (pts.length : ℝ)) (pts.foldl Vec3R.add Vec3R.zero))

end

/-! ## Unit resolution (`normalizeUnitName`, `detectUnitsFromResult`,
`convertToMillimeters`, `validateUnitsAgainstGeometry`) -/

/-- JavaScript `trim()` on a character list. -/
def jsTrimChars (cs : List Char) : List Char :=
  ((cs.dropWhile Char.isWhitespace).reverse.dropWhile Char.isWhitespace).reverse

/-- `normalizeUnitName(unit)`: lowercase, trim, strip dots, then apply the
alias table (unmapped names pass through unchanged). -/
def normalizeUnitName (unit : String) : String :=
  let normalized := String.mk ((jsTrimChars (jsToLower unit).data).filter (· ≠ '.'))
  if normalized = "milli" then "millimeter"
  else if normalized = "millimetre" then "millimeter"
  else if normalized = "mm" then "millimeter"
  else if normalized = "metre" then "meter"
  else if normalized = "m" then "meter"
  else if normalized = "centimetre" then "centimeter"
  else if normalized = "cm" then "centimeter"
  else if normalized = "in" then "inch"
  else if normalized = "\x22" then "inch"
  else if normalized = "ft" then "foot"
  else if normalized = "\x27" then "foot"
  else if normalized = "yd" then "yard"
  else normalized

/-- `UNIT_CONVERSION_TO_MM` lookup with the `|| 1` default.  (No table
value is `0`, so JavaScript falsiness only fires for absent keys; the
dotted STEP spellings in the table are unreachable through
`convertToMillimeters` because normalization strips dots first, and the
micro/nano spellings keep their exact factors.) -/
def mmFactor (unit : String) : ℚ :=
  if unit = "metre" ∨ unit = "meter" ∨ unit = "m" then 1000
  else if unit = "millimetre" ∨ unit = "millimeter" ∨ unit = "mm" then 1
  else if unit = "centimetre" ∨ unit = "centimeter" ∨ unit = "cm" then 10
  else if unit = "micrometre" ∨ unit = "micrometer" ∨ unit = "Œºm" then 0.001
  else if unit = "nanometre" ∨ unit = "nanometer" ∨ unit = "nm" then 0.000001
  else if unit = "inch" ∨ unit = "in" ∨ unit = "\x22" then 25.4
  else if unit = "foot" ∨ unit = "ft" ∨ unit = "\x27" then 304.8
  else if unit = "yard" ∨ unit = "yd" then 914.4
  else if unit = ".metre." then 1000
  else if unit = ".milli." ∨ unit = ".millimetre." then 1
  else if unit = ".inch." then 25.4
  else 1

/-- `convertToMillimeters(length, fromUnit)` on a possibly-special length:
normalize the unit name, look up the factor, multiply. -/
noncomputable def convertToMillimeters (length : JsNum) (fromUnit : String) : JsNum :=
  jsMul length (.fin ((mmFactor (normalizeUnitName fromUnit)) : ℝ))

/-- The decoded-result fields that `detectUnitsFromResult` inspects. -/
structure OcctUnitsInfo where
  units : Option String
  metadataUnits : Option String
  lengthUnit : Option String

/-- `detectUnitsFromResult(result, fileType, originalFile)`.

`stepFileUnits` stands for the value of `parseUnitsFromStepFile` on the
original file: `none` when no original file was passed or when none of the
STEP header regexes matched, `some u` when a regex matched with payload
`u`.  Empty-string fields are skipped, mirroring JavaScript truthiness. -/
def detectUnitsFromResult (info : OcctUnitsInfo) (fileType : StepIgesKind)
    (stepFileUnits : Option String) : String :=
  match info.units with
  | some u =>
    if u ≠ "" then normalizeUnitName (jsToLower u)
    else detectUnitsAfterResultUnits info fileType stepFileUnits
  | none => detectUnitsAfterResultUnits info fileType stepFileUnits
where
  /-- Steps after the `result.units` check. -/
  detectUnitsAfterResultUnits (info : OcctUnitsInfo) (fileType : StepIgesKind)
      (stepFileUnits : Option String) : String :=
    match info.metadataUnits with
    | some u =>
      if u ≠ "" then normalizeUnitName (jsToLower u)
      else detectUnitsTail info fileType stepFileUnits
    | none => detectUnitsTail info fileType stepFileUnits
  /-- Steps after the metadata check: STEP length unit, STEP file scan,
  then the millimeter default. -/
  detectUnitsTail (info : OcctUnitsInfo) (fileType : StepIgesKind)
      (stepFileUnits : Option String) : String :=
    match fileType, info.lengthUnit with
    | .step, some u =>
      if u ≠ "" then normalizeUnitName (jsToLower u)
      else detectUnitsScan fileType stepFileUnits
    | _, _ => detectUnitsScan fileType stepFileUnits
  /-- The STEP-file scan step and the final default. -/
  detectUnitsScan (fileType : StepIgesKind) (stepFileUnits : Option String) :
      String :=
    match fileType, stepFileUnits with
    | .step, some u => normalizeUnitName u
    | _, _ => "millimeter"

/-- Result record of `validateUnitsAgainstGeometry`. -/
structure UnitValidation where
  isValid : Bool
  confidence : ℝ
  suggestedUnit : Option String

/-- The `reasonableRanges` table: `(min, max, typical)` per unit. -/
def reasonableRanges (unit : String) : Option (ℚ × ℚ × ℚ) :=
  if unit = "millimeter" then some (0.1, 10000, 100)
  else if unit = "meter" then some (0.001, 100, 0.1)
  else if unit = "inch" then some (0.01, 1000, 4)
  else if unit = "foot" then some (0.001, 100, 0.33)
  else if unit = "centimeter" then some (0.01, 1000, 10)
  else none

/-- `validateUnitsAgainstGeometry(detectedUnits, boundingSize)`. -/
noncomputable def validateUnitsAgainstGeometry (detectedUnits : String)
    (boundingSize : Vec3R) : UnitValidation :=
  let maxDimension := max3 boundingSize
  let normalizedUnit := normalizeUnitName detectedUnits
  match reasonableRanges normalizedUnit with
  | none => ⟨false, 0, none⟩
  | some r =>
    if maxDimension < (r.1 : ℝ) ∨ (r.2.1 : ℝ) < maxDimension then
      let suggestedUnit :=
        if maxDimension < (r.1 : ℝ) then
          if normalizedUnit = "meter" then "millimeter"
          else if normalizedUnit = "foot" then "inch"
          else if normalizedUnit = "centimeter" then "millimeter"
          else normalizedUnit
        else
          if normalizedUnit = "millimeter" then "meter"
          else if normalizedUnit = "inch" then "foot"
          else if normalizedUnit = "centimeter" then "meter"
          else normalizedUnit
      ⟨false, 0.1, some suggestedUnit⟩
    else
      let typicalDistance := |Real.logb 10 (maxDimension / (r.2.2 : ℝ))|
      ⟨true, max 0.3 (min 0.95 (1 - typicalDistance / 2)), none⟩

/-- `estimateUnitsFromGeometry(boundingSize)` (the DXF fallback). -/
noncomputable def estimateUnitsFromGeometry (boundingSize : Vec3R) : String :=
  let maxDimension := max3 boundingSize
  if maxDimension < 1 then "meter"
  else if 1 ≤ maxDimension ∧ maxDimension ≤ 1000 then "millimeter"
  else "millimeter"

/-! ## Mesh model and surface sampling -/

/-- A `THREE.BufferGeometry` as the analyzer sees it: an optional position
buffer (a list of points), an optional index buffer, and an optional
cached bounding box.  Normal buffers are computed by the parser but never
read by any analysis function, so they are not tracked. -/
structure BufferGeometryM where
  position : Option (List Vec3R)
  index : Option (List ℕ)
  boundingBox : Option Box3R

/-- One entry of the mesh array handed to the analyzer. -/
structure MeshM where
  geometry : BufferGeometryM

/-- Number of loop iterations of `for (i = 0; i < count; i += stride)`. -/
def strideCount (count stride : ℕ) : ℕ := (count + stride - 1) / stride

/-- `samplePointsFromMeshes(meshes, targetSampleCount)`: stride uniformly
through each position buffer. -/
noncomputable def samplePointsFromMeshes (meshes : List MeshM)
    (targetSampleCount : ℕ) : List Vec3R :=
  if meshes.isEmpty then []
  else
    let samplesPerMesh := max 50 (targetSampleCount / meshes.length)
    meshes.flatMap (fun m =>
      match m.geometry.position with
      | none => []
      | some ps =>
        if ps.length = 0 then []
        else
          let stride := max 1 (ps.length / samplesPerMesh)
          (List.range (strideCount ps.length stride)).map
            (fun i => ps.getD (i * stride) Vec3R.zero))

/-- Sampled index `Math.floor((i / (sampleCount - 1)) * (count - 1))`.
For `sampleCount = 1` JavaScript computes a NaN index and reads an
`undefined` entry (a NaN point); the resulting single point is never
consumed by any downstream loop, and Lean's `0`-valued division by zero
makes it index 0 instead, equally unobservable. -/
noncomputable def jsSampleIdx (i sampleCount count : ℕ) : ℕ :=
  (Int.floor (((i : ℝ) / ((sampleCount : ℝ) - 1)) * ((count : ℝ) - 1))).toNat

/-- Evenly-indexed sample of a position buffer, as used by
`calculatePathLength`, `analyzeCurvature` and `analyzeDirectionChanges`. -/
noncomputable def samplePath (ps : List Vec3R) (sampleCount : ℕ) : List Vec3R :=
  (List.range sampleCount).map
    (fun i => ps.getD (jsSampleIdx i sampleCount ps.length) Vec3R.zero)

/-- `calculatePathLength(meshes)` (the Path Calculation estimator). -/
noncomputable def calculatePathLength (meshes : List MeshM) : ℝ :=
  match meshes with
  | [m] =>
    match m.geometry.position with
    | none => 0
    | some ps =>
      if ps.length < 10 then 0
      else
        let sampleCount := min 50 (ps.length / 10)
        let points := samplePath ps sampleCount
        let totalDistance := polylineLength points
        match m.geometry.boundingBox with
        | some bb =>
          if bb.min.distanceTo bb.max * 0.8 < totalDistance then totalDistance
          else 0
        | none => 0
  | _ => 0

/-! ## PCA slicing estimator -/

/-- The six independent entries of the symmetric sample covariance. -/
structure Cov3 where
  c00 : ℝ
  c01 : ℝ
  c02 : ℝ
  c11 : ℝ
  c12 : ℝ
  c22 : ℝ

/-- Apply the covariance matrix to a vector (one power-iteration step). -/
noncomputable def covApply (c : Cov3) (v : Vec3R) : Vec3R :=
  ⟨c.c00 * v.x + c.c01 * v.y + c.c02 * v.z,
   c.c01 * v.x + c.c11 * v.y + c.c12 * v.z,
   c.c02 * v.x + c.c12 * v.y + c.c22 * v.z⟩

/-- The power-iteration loop: up to `fuel` steps, breaking when the
iterate collapses below `1e-12` (where the unnormalized iterate is kept,
as in the source). -/
noncomputable def powerIterate (c : Cov3) : ℕ → Vec3R → Vec3R
  | 0, v => v
  | fuel + 1, v =>
    let w := covApply c v
    if w.len < 1e-12 then w
    else powerIterate c fuel (w.smul (1 / w.len))

/-- `computePrincipalAxis(points)`. -/
noncomputable def computePrincipalAxis (points : List Vec3R) : Option Vec3R :=
  if points.length < 3 then none
  else
    let mean := meanPoint points
    let invN := 1 / ((points.length : ℝ) - 1)
    let cov : Cov3 :=
      { c00 := invN * (points.map (fun p => (p.x - mean.x) * (p.x - mean.x))).sum
        c01 := invN * (points.map (fun p => (p.x - mean.x) * (p.y - mean.y))).sum
        c02 := invN * (points.map (fun p => (p.x - mean.x) * (p.z - mean.z))).sum
        c11 := invN * (points.map (fun p => (p.y - mean.y) * (p.y - mean.y))).sum
        c12 := invN * (points.map (fun p => (p.y - mean.y) * (p.z - mean.z))).sum
        c22 := invN * (points.map (fun p => (p.z - mean.z) * (p.z - mean.z))).sum }
    let v0 : Vec3R :=
      if |cov.c00| < 1e-9 ∧ |cov.c01| < 1e-9 ∧ |cov.c02| < 1e-9 then ⟨0, 1, 0⟩
      else ⟨1, 0, 0⟩
    let v := powerIterate cov 20 v0
    if v.len < 1e-6 then none else some v.normalize

/-- Slab index of a projection value in `estimateCenterlineLengthBySlicing`. -/
noncomputable def sliceIdx (proj minProj sliceWidth : ℝ) (numSlices : ℕ) : ℕ :=
  min (numSlices - 1) (max 0 (Int.floor ((proj - minProj) / sliceWidth))).toNat

/-- Moving-average smoothing with window radius 3 over the centroid list. -/
noncomputable def smoothCentroids (centroids : List Vec3R) : List Vec3R :=
  (List.range centroids.length).map (fun i =>
    let idxs := (List.range centroids.length).filter
      (fun j => i ≤ j + 3 ∧ j ≤ i + 3)
    meanPoint (idxs.map (fun j => centroids.getD j Vec3R.zero)))

/-- `estimateCenterlineLengthBySlicing(meshes, 120)` (the PCA Slicing
estimator).  The source wraps the body in try/catch returning 0; no
exception is reachable in this model, every early exit is explicit. -/
noncomputable def estimateCenterlineLengthBySlicing (meshes : List MeshM) : ℝ :=
  let numSlices : ℕ := 120
  let points := samplePointsFromMeshes meshes 2000
  if points.length < 10 then 0
  else
    match computePrincipalAxis points with
    | none => 0
    | some axis =>
      let origin := meanPoint points
      let projections := points.map (fun p => (p.sub origin).dot axis)
      match projections with
      | [] => 0
      | q :: qs =>
        let minProj := qs.foldl min q
        let maxProj := qs.foldl max q
        if maxProj ≤ minProj then 0
        else
          let sliceWidth := (maxProj - minProj) / (numSlices : ℝ)
          if sliceWidth ≤ 0 then 0
          else
            let idxOf := fun (p : Vec3R) =>
              sliceIdx ((p.sub origin).dot axis) minProj sliceWidth numSlices
            let centroids := (List.range numSlices).filterMap (fun i =>
              let grp := points.filter (fun p => idxOf p = i)
              if grp.isEmpty then none else some (meanPoint grp))
            if centroids.length < 2 then 0
            else
              let smoothed := smoothCentroids centroids
              let length := polylineLength smoothed
              let size := boxSize (computeBBox points)
              let dominantDimension := max3 size
              if length ≤ 0 then 0
              else if length < dominantDimension * 0.8 then 0
              else length

/-! ## 3D skeletonization: voxel grid and distance transform -/

/-- The voxel occupancy grid built by `createVoxelGrid`, with its world
bounds and resolution.  The nested boolean arrays of the source are
represented as an occupancy function over integer voxel coordinates. -/
structure VoxelGridM where
  dims : ℕ × ℕ × ℕ
  occ : ℕ → ℕ → ℕ → Bool
  bounds : Box3R
  resolution : ℝ

/-- Voxel coordinate of a point along one axis:
`Math.floor((p - min) / resolution)`. -/
noncomputable def voxelCoord (p minv resolution : ℝ) : ℤ :=
  Int.floor ((p - minv) / resolution)

/-- `createVoxelGrid(points)`.  The resolution targets 80 voxels along the
longest axis.  When every sample coincides (`maxDim = 0`) JavaScript
computes NaN dimensions and builds an empty nested array; here the
`0 / 0 = 0` convention yields zero dimensions, which is the same empty
grid, and the downstream skeleton is empty either way (the source then
throws on the empty array and catches the throw into the same failure
result this model reaches through the empty skeleton). -/
noncomputable def createVoxelGrid (points : List Vec3R) : VoxelGridM :=
  let bounds := computeBBox points
  let size := boxSize bounds
  let maxDim := max3 size
  let resolution := maxDim / 80
  let dims : ℕ × ℕ × ℕ :=
    ((Int.ceil (size.x / resolution)).toNat,
     (Int.ceil (size.y / resolution)).toNat,
     (Int.ceil (size.z / resolution)).toNat)
  { dims := dims
    occ := fun x y z =>
      decide (x < dims.1 ∧ y < dims.2.1 ∧ z < dims.2.2) &&
        points.any (fun p =>
          decide (voxelCoord p.x bounds.min.x resolution = (x : ℤ) ∧
            voxelCoord p.y bounds.min.y resolution = (y : ℤ) ∧
            voxelCoord p.z bounds.min.z resolution = (z : ℤ)))
    bounds := bounds
    resolution := resolution }

/-- An integer distance field over voxel coordinates (`0` at surface
voxels, `∞` where never relaxed). -/
structure DistFieldM where
  dims : ℕ × ℕ × ℕ
  val : ℕ → ℕ → ℕ → ℕ∞

/-- All voxel coordinates in x-major sweep order. -/
def allCells (dims : ℕ × ℕ × ℕ) : List (ℕ × ℕ × ℕ) :=
  (List.range dims.1).flatMap (fun x =>
    (List.range dims.2.1).flatMap (fun y =>
      (List.range dims.2.2).map (fun z => (x, y, z))))

/-- The six axis-aligned neighbor offsets, in the order of the source. -/
def neighborOffsets6 : List (ℤ × ℤ × ℤ) :=
  [(-1, 0, 0), (1, 0, 0), (0, -1, 0), (0, 1, 0), (0, 0, -1), (0, 0, 1)]

/-- Pointwise update of a 3-argument function at one cell. -/
def upd3 (f : ℕ → ℕ → ℕ → ℕ∞) (c : ℕ × ℕ × ℕ) (v : ℕ∞) :
    ℕ → ℕ → ℕ → ℕ∞ :=
  fun x y z => if (x, y, z) = c then v else f x y z

/-- One in-place relaxation sweep of the distance transform: each
non-surface cell takes the minimum of its value and
`neighbor + 1` over the in-range 6-neighbors, reading already-updated
values of earlier cells in the sweep, and the flag records whether any
cell improved. -/
def dtSweep (dims : ℕ × ℕ × ℕ) (occ : ℕ → ℕ → ℕ → Bool)
    (f0 : ℕ → ℕ → ℕ → ℕ∞) : (ℕ → ℕ → ℕ → ℕ∞) × Bool :=
  (allCells dims).foldl (fun (acc : (ℕ → ℕ → ℕ → ℕ∞) × Bool) c =>
    let f := acc.1
    if occ c.1 c.2.1 c.2.2 then acc
    else
      let old := f c.1 c.2.1 c.2.2
      let minDist := neighborOffsets6.foldl (fun d off =>
        let nx := (c.1 : ℤ) + off.1
        let ny := (c.2.1 : ℤ) + off.2.1
        let nz := (c.2.2 : ℤ) + off.2.2
        if 0 ≤ nx ∧ nx < (dims.1 : ℤ) ∧ 0 ≤ ny ∧ ny < (dims.2.1 : ℤ) ∧
            0 ≤ nz ∧ nz < (dims.2.2 : ℤ) then
          min d (f nx.toNat ny.toNat nz.toNat + 1)
        else d) old
      (upd3 f c minDist, acc.2 || decide (minDist < old))) (f0, false)

/-- The bounded relaxation loop (`maxIterations` sweeps, stopping as soon
as a sweep changes nothing). -/
def dtIterate (dims : ℕ × ℕ × ℕ) (occ : ℕ → ℕ → ℕ → Bool) :
    ℕ → (ℕ → ℕ → ℕ → ℕ∞) → (ℕ → ℕ → ℕ → ℕ∞)
  | 0, f => f
  | fuel + 1, f =>
    let step := dtSweep dims occ f
    if step.2 then dtIterate dims occ fuel step.1 else step.1

/-- `computeDistanceTransform(voxelGrid, bounds, resolution)`. -/
def computeDistanceTransform (grid : VoxelGridM) : DistFieldM :=
  let dims := grid.dims
  let maxIterations := max dims.1 (max dims.2.1 dims.2.2)
  { dims := dims
    val := dtIterate dims grid.occ maxIterations
      (fun x y z => if grid.occ x y z then 0 else ⊤) }

/-! ## Medial-axis extraction -/

/-- A medial-axis voxel with its distance value. -/
structure SkeletonVoxel where
  x : ℕ
  y : ℕ
  z : ℕ
  distance : ℕ∞
  deriving DecidableEq

/-- Inner voxel coordinates (one layer away from every face), in sweep
order. -/
def innerCells (dims : ℕ × ℕ × ℕ) : List (ℕ × ℕ × ℕ) :=
  (List.range' 1 (dims.1 - 2)).flatMap (fun x =>
    (List.range' 1 (dims.2.1 - 2)).flatMap (fun y =>
      (List.range' 1 (dims.2.2 - 2)).map (fun z => (x, y, z))))

/-- The 26 neighbor offsets of the `dx, dy, dz` triple loop, skipping the
origin, in loop order. -/
def neighborOffsets26 : List (ℤ × ℤ × ℤ) :=
  ([-1, 0, 1].flatMap (fun dx =>
    [-1, 0, 1].flatMap (fun dy =>
      [-1, 0, 1].map (fun dz => ((dx : ℤ), (dy : ℤ), (dz : ℤ)))))).filter
    (fun off => off ≠ (0, 0, 0))

/-- The `isLocalMax` flag loop of `extractSkeletonVoxels`: the flag
survives iff no 26-neighbor has a strictly greater distance. -/
def isLocalMaxFlag (f : ℕ → ℕ → ℕ → ℕ∞) (x y z : ℕ) : Bool :=
  neighborOffsets26.foldl (fun acc off =>
    acc && !decide (f x y z < f ((x : ℤ) + off.1).toNat ((y : ℤ) + off.2.1).toNat
      ((z : ℤ) + off.2.2).toNat)) true

/-- `extractSkeletonVoxels(distanceField, bounds, resolution)`: collect
the inner voxels with distance at least 2 whose flag loop survives. -/
def extractSkeletonVoxels (df : DistFieldM) : List SkeletonVoxel :=
  (innerCells df.dims).filterMap (fun c =>
    let currentDist := df.val c.1 c.2.1 c.2.2
    if currentDist < 2 then none
    else if isLocalMaxFlag df.val c.1 c.2.1 c.2.2 then
      some ⟨c.1, c.2.1, c.2.2, currentDist⟩
    else none)

/-- `voxelsToPoints(skeletonVoxels, bounds, resolution)`. -/
noncomputable def voxelsToPoints (voxels : List SkeletonVoxel)
    (bounds : Box3R) (resolution : ℝ) : List Vec3R :=
  voxels.map (fun v =>
    ⟨bounds.min.x + ((v.x : ℝ) + 0.5) * resolution,
     bounds.min.y + ((v.y : ℝ) + 0.5) * resolution,
     bounds.min.z + ((v.z : ℝ) + 0.5) * resolution⟩)

/-! ## Skeleton path ordering and confidence -/

noncomputable instance : DecidableEq Vec3R := Classical.decEq Vec3R

/-- Remove the first occurrence of a value from a list
(`splice(indexOf(v), 1)`; the callers only remove values that are
present). -/
noncomputable def eraseFirstVal : List Vec3R → Vec3R → List Vec3R
  | [], _ => []
  | x :: xs, v => if x = v then xs else x :: eraseFirstVal xs v

/-- `calculateAveragePointSpacing(points)`: mean nearest-neighbor distance
over the first (up to) 100 points. -/
noncomputable def calculateAveragePointSpacing (points : List Vec3R) : ℝ :=
  if points.length < 2 then 1
  else
    let dists := (List.range (min points.length 100)).filterMap (fun i =>
      match ((List.range points.length).filter (fun j => j ≠ i)).map
          (fun j => (points.getD i Vec3R.zero).distanceTo
            (points.getD j Vec3R.zero)) with
      | [] => none
      | d :: ds => some (ds.foldl min d))
    if dists.length = 0 then 1 else dists.sum / (dists.length : ℝ)

/-- The greedy nearest-unvisited traversal of `orderSkeletonPoints`
(ties go to the earliest element, as the strict `<` comparison does). -/
noncomputable def greedyOrder (current : Vec3R) : ℕ → List Vec3R → List Vec3R
  | 0, _ => []
  | _, [] => []
  | fuel + 1, r0 :: rs =>
    let nearest := rs.foldl (fun best p =>
      if current.distanceTo p < current.distanceTo best then p else best) r0
    nearest :: greedyOrder nearest fuel (eraseFirstVal (r0 :: rs) nearest)

/-- The farthest-apart pair fallback of `orderSkeletonPoints` (first
strictly-maximal pair in the double loop order). -/
noncomputable def farthestPair (points : List Vec3R) : Vec3R × Vec3R :=
  let n := points.length
  let pairs := (List.range n).flatMap (fun i =>
    (List.range n).filterMap (fun j =>
      if i < j then some (points.getD i Vec3R.zero, points.getD j Vec3R.zero)
      else none))
  (pairs.foldl (fun (acc : ℝ × Vec3R × Vec3R) pq =>
    if acc.1 < pq.1.distanceTo pq.2 then (pq.1.distanceTo pq.2, pq.1, pq.2)
    else acc)
    ((0 : ℝ), points.getD 0 Vec3R.zero, points.getD 1 Vec3R.zero)).2

/-- `orderSkeletonPoints(points)`. -/
noncomputable def orderSkeletonPoints (points : List Vec3R) : List Vec3R :=
  if points.length < 2 then points
  else
    let maxConnectionDist := calculateAveragePointSpacing points * 2
    let endpoints := (List.range points.length).filterMap (fun i =>
      let p := points.getD i Vec3R.zero
      let neighborCount := ((List.range points.length).filter (fun j =>
        j ≠ i ∧ (points.getD j Vec3R.zero).distanceTo p ≤ maxConnectionDist)).length
      if neighborCount ≤ 1 then some p else none)
    let endpoints :=
      if endpoints.length < 2 then
        let pair := farthestPair points
        endpoints ++ [pair.1, pair.2]
      else endpoints
    let current := endpoints.getD 0 Vec3R.zero
    current :: greedyOrder current points.length (eraseFirstVal points current)

/-- `calculateSkeletonConfidence(centerline, originalPoints)`. -/
noncomputable def calculateSkeletonConfidence (centerline : List Vec3R)
    (originalPoints : List Vec3R) : ℝ :=
  if centerline.length < 2 then 0
  else
    let smoothnessScore :=
      if 2 < centerline.length then
        let totalAngleDeviation :=
          ((List.range (centerline.length - 2)).map (fun k =>
            let i := k + 1
            let v1 := ((centerline.getD i Vec3R.zero).sub
              (centerline.getD (i - 1) Vec3R.zero)).normalize
            let v2 := ((centerline.getD (i + 1) Vec3R.zero).sub
              (centerline.getD i Vec3R.zero)).normalize
            v1.angleTo v2)).sum
        max 0.1 (1 - totalAngleDeviation / ((centerline.length : ℝ) - 2) / Real.pi)
      else 1
    let coverageScore :=
      min 1 ((centerline.length : ℝ) / ((originalPoints.length : ℝ) * 0.01))
    min 0.95 (smoothnessScore * 0.7 + coverageScore * 0.3)

/-! ## Numerical arc-length integrators (`CurveIntegrator`)

No theorem below forces a value of these integrators; they are embedded
for completeness of `extractCenterlineBy3DSkeletonization`.  Divisions
whose denominators are zero (possible only inside the B-spline basis on
degenerate knot spans) use Lean's `0`-valued division where JavaScript
would produce NaN; no exercised execution path reaches them. -/

/-- `adaptiveSimpsonSegment(p1, p2, tolerance, depth)`. -/
noncomputable def adaptiveSimpsonSegment (tolerance : ℝ) :
    Vec3R → Vec3R → ℕ → ℝ
  | p1, p2, 0 => p1.distanceTo p2
  | p1, p2, depth + 1 =>
    let mid := (p1.add p2).smul 0.5
    let straightDistance := p1.distanceTo p2
    let simpson := (0.5 / 3) * (1 + 4 * 1 + 1) * straightDistance
    if |simpson - straightDistance| < tolerance then simpson
    else adaptiveSimpsonSegment tolerance p1 mid depth +
      adaptiveSimpsonSegment tolerance mid p2 depth

/-- `CurveIntegrator.adaptiveSimpsonArcLength(points)` with the default
tolerance `1e-6` and depth 10. -/
noncomputable def adaptiveSimpsonArcLength (points : List Vec3R) : ℝ :=
  if points.length < 2 then 0
  else ((points.zip points.tail).map
    (fun pq => adaptiveSimpsonSegment 1e-6 pq.1 pq.2 10)).sum

/-- The 5-point Gauss-Legendre weights of the source. -/
def gaussWeights : List ℚ :=
  [0.2369268851, 0.4786286705, 0.5688888889, 0.4786286705, 0.2369268851]

/-- `CurveIntegrator.gaussianQuadratureArcLength(points)`: for each
non-degenerate segment the weighted sum of the constant derivative
magnitude, halved. -/
noncomputable def gaussianQuadratureArcLength (points : List Vec3R) : ℝ :=
  if points.length < 2 then 0
  else ((points.zip points.tail).map (fun pq =>
    let segmentLength := (pq.2.sub pq.1).len
    if segmentLength = 0 then 0
    else ((gaussWeights.map (fun w => (w : ℝ) * segmentLength)).sum) * 0.5)).sum

/-- `CurveIntegrator.createUniformKnotVector(n, degree)`. -/
noncomputable def createUniformKnotVector (n degree : ℕ) : List ℝ :=
  (List.range (n + degree + 1)).map (fun i =>
    if i ≤ degree then 0
    else if i < n + degree + 1 - degree then
      ((i - degree : ℕ) : ℝ) / ((n - degree : ℕ) : ℝ)
    else 1)

/-- The knot-span search loop of `evaluateBSpline`. -/
noncomputable def findKnotSpan (n : ℕ) (knot : List ℝ) (t : ℝ) :
    ℕ → ℕ → ℕ
  | 0, span => span
  | fuel + 1, span =>
    if span < n ∧ knot.getD (span + 1) 0 ≤ t then
      findKnotSpan n knot t fuel (span + 1)
    else span

/-- One outer iteration (`j`) of `computeBasisFunctions`, updating the
basis, left and right arrays in place. -/
noncomputable def basisOuterStep (span : ℕ) (t : ℝ) (knot : List ℝ)
    (state : List ℝ × List ℝ × List ℝ) (j : ℕ) :
    List ℝ × List ℝ × List ℝ :=
  let basis := state.1
  let left := (state.2.1).set j (t - knot.getD (span + 1 - j) 0)
  let right := (state.2.2).set j (knot.getD (span + j) 0 - t)
  let inner := (List.range j).foldl (fun (acc : List ℝ × ℝ) r =>
    let temp := acc.1.getD r 0 / (right.getD (r + 1) 0 + left.getD (j - r) 0)
    (acc.1.set r (acc.2 + right.getD (r + 1) 0 * temp),
     left.getD (j - r) 0 * temp)) (basis, 0)
  (inner.1.set j inner.2, left, right)

/-- `CurveIntegrator.computeBasisFunctions(span, t, degree, knotVector)`. -/
noncomputable def computeBasisFunctions (span : ℕ) (t : ℝ) (degree : ℕ)
    (knot : List ℝ) : List ℝ :=
  (((List.range degree).map (· + 1)).foldl (basisOuterStep span t knot)
    ((List.replicate (degree + 1) 0).set 0 1,
     List.replicate (degree + 1) 0,
     List.replicate (degree + 1) 0)).1

/-- `CurveIntegrator.evaluateBSpline(controlPoints, degree, knotVector, t)`. -/
noncomputable def evaluateBSpline (controlPoints : List Vec3R) (degree : ℕ)
    (knot : List ℝ) (t : ℝ) : Option Vec3R :=
  if t < 0 ∨ 1 < t then none
  else
    let n := controlPoints.length
    let span := findKnotSpan n knot t n degree
    let basis := computeBasisFunctions span t degree knot
    some ((List.range (degree + 1)).foldl (fun point i =>
      match controlPoints.get? (span - degree + i) with
      | some cp => point.add (cp.smul (basis.getD i 0))
      | none => point) Vec3R.zero)

/-- `CurveIntegrator.linearInterpolationLength(points)`. -/
noncomputable def linearInterpolationLength (points : List Vec3R) : ℝ :=
  polylineLength points

/-- `CurveIntegrator.bSplineArcLength(points, 3)`. -/
noncomputable def bSplineArcLength (points : List Vec3R) : ℝ :=
  let degree := 3
  if points.length < degree + 1 then linearInterpolationLength points
  else
    let knot := createUniformKnotVector points.length degree
    let curvePoints := (List.range 101).filterMap (fun i =>
      evaluateBSpline points degree knot ((i : ℝ) / 100))
    linearInterpolationLength curvePoints

/-! ## Numerical length selection and the multi-method estimator -/

/-- One numerical-integration result. -/
structure NumericalLengthResult where
  length : ℝ
  method : String
  confidence : ℝ

/-- Stable insertion into a descending-by-confidence list (equal
confidences keep their original relative order, as the stable
`Array.sort` of the source does). -/
noncomputable def insertDescBy {α : Type} (conf : α → ℝ) (x : α) :
    List α → List α
  | [] => [x]
  | y :: ys =>
    if conf x < conf y then y :: insertDescBy conf x ys else x :: y :: ys

/-- Stable descending sort by confidence. -/
noncomputable def sortDescBy {α : Type} (conf : α → ℝ) : List α → List α
  | [] => []
  | x :: xs => insertDescBy conf x (sortDescBy conf xs)

/-- `calculateCurveLengthNumerical(centerlinePoints)`: run the four
integrators (none of them throws in this model), pick the
highest-confidence result, and adjust its confidence by the coefficient
of variation across all four.  The coefficient `stdev / mean` is formed
with JavaScript division, so a zero mean gives NaN and neither adjustment
branch fires. -/
noncomputable def calculateCurveLengthNumerical (centerlinePoints : List Vec3R) :
    NumericalLengthResult :=
  if centerlinePoints.length < 2 then ⟨0, "none", 0⟩
  else
    let results : List NumericalLengthResult :=
      [⟨adaptiveSimpsonArcLength centerlinePoints, "Adaptive Simpson", 0.85⟩,
       ⟨gaussianQuadratureArcLength centerlinePoints, "Gaussian Quadrature", 0.80⟩,
       ⟨bSplineArcLength centerlinePoints, "B-spline Integration", 0.75⟩,
       ⟨linearInterpolationLength centerlinePoints, "Linear Interpolation", 0.60⟩]
    let sorted := sortDescBy (·.confidence) results
    let best := sorted.headD ⟨0, "none", 0⟩
    let avgLength := (sorted.map (·.length)).sum / (sorted.length : ℝ)
    let variance :=
      (sorted.map (fun r => (r.length - avgLength) ^ 2)).sum / (sorted.length : ℝ)
    let coefficientOfVariation : JsNum :=
      jsDiv (.fin (Real.sqrt variance)) (.fin avgLength)
    let finalConfidence :=
      if jsLt coefficientOfVariation (.fin 0.15) then min 0.95 (best.confidence + 0.05)
      else if jsLt (.fin 0.3) coefficientOfVariation then
        max 0.3 (best.confidence - 0.15)
      else best.confidence
    ⟨best.length, best.method, finalConfidence⟩

/-- Result of the skeletonization estimator. -/
structure SkeletonizationResult where
  centerline : List Vec3R
  length : ℝ
  confidence : ℝ

/-- `extractCenterlineBy3DSkeletonization(meshes)`.  All failure exits
(no meshes, fewer than 50 surface samples, fewer than 2 medial points,
and the caught throw on a degenerate voxel grid) produce the same
`([], 0, 0)` failure value. -/
noncomputable def extractCenterlineBy3DSkeletonization (meshes : List MeshM) :
    SkeletonizationResult :=
  if meshes.isEmpty then ⟨[], 0, 0⟩
  else
    let surfacePoints := samplePointsFromMeshes meshes 3000
    if surfacePoints.length < 50 then ⟨[], 0, 0⟩
    else
      let vg := createVoxelGrid surfacePoints
      let df := computeDistanceTransform vg
      let skeletonVoxels := extractSkeletonVoxels df
      let skeletonPoints := voxelsToPoints skeletonVoxels vg.bounds vg.resolution
      if skeletonPoints.length < 2 then ⟨[], 0, 0⟩
      else
        let orderedCenterline := orderSkeletonPoints skeletonPoints
        let numericalResult := calculateCurveLengthNumerical orderedCenterline
        let skeletonConfidence :=
          calculateSkeletonConfidence orderedCenterline surfacePoints
        ⟨orderedCenterline, numericalResult.length,
          skeletonConfidence * 0.6 + numericalResult.confidence * 0.4⟩

/-- One collected length estimate of the multi-method calculator. -/
structure LengthEstimate where
  method : String
  length : JsNum
  confidence : ℝ

/-- Middle value of three reals (the second entry of the descending
`[x, y, z].sort((a, b) => b - a)`). -/
noncomputable def mid3 (v : Vec3R) : ℝ :=
  max (min v.x v.y) (min (max v.x v.y) v.z)

/-- Smallest of the three components. -/
noncomputable def min3 (v : Vec3R) : ℝ := min v.x (min v.y v.z)

/-- Result of `calculateTubeLengthMultiMethod`. -/
structure MultiMethodResult where
  bestLength : JsNum
  method : String
  confidence : ℝ
  allResults : List LengthEstimate

/-- `calculateTubeLengthMultiMethod(meshes, boundingSize, units)`.

The three geometric estimators contribute only when they return a
strictly positive length; the bounding-box fallback always contributes.
Its degenerate branch computes
`lengthDimension * max(1, sqrt(lengthDimension / averageCrossDimension))`
with JavaScript arithmetic, so a `0 / 0` inside produces NaN which
propagates through `sqrt`, `max` and the product.  Cross-validation of
multiple results uses JavaScript division as well. -/
noncomputable def calculateTubeLengthMultiMethod (meshes : List MeshM)
    (boundingSize : Vec3R) : MultiMethodResult :=
  if meshes.isEmpty then ⟨.fin 0, "none", 0, []⟩
  else
    let skeletonResult := extractCenterlineBy3DSkeletonization meshes
    let skeletonEstimates : List LengthEstimate :=
      if 0 < skeletonResult.length then
        [⟨"3D Skeletonization", .fin skeletonResult.length,
          skeletonResult.confidence⟩]
      else []
    let pcaLength := estimateCenterlineLengthBySlicing meshes
    let pcaEstimates : List LengthEstimate :=
      if 0 < pcaLength then [⟨"PCA Slicing", .fin pcaLength, 0.7⟩] else []
    let pathLength := calculatePathLength meshes
    let pathEstimates : List LengthEstimate :=
      if 0 < pathLength then [⟨"Path Calculation", .fin pathLength, 0.6⟩] else []
    let lengthDimension := max3 boundingSize
    let averageCrossDimension := (mid3 boundingSize + min3 boundingSize) / 2
    let boundingBoxEstimate : LengthEstimate :=
      if averageCrossDimension * 3 < lengthDimension then
        ⟨"Bounding Box", .fin lengthDimension, 0.5⟩
      else
        ⟨"Bounding Box",
          jsMul (.fin lengthDimension)
            (jsMax (.fin 1)
              (jsSqrt (jsDiv (.fin lengthDimension) (.fin averageCrossDimension)))),
          0.2⟩
    let results := skeletonEstimates ++ pcaEstimates ++ pathEstimates ++
      [boundingBoxEstimate]
    if results.isEmpty then ⟨.fin 0, "none", 0, []⟩
    else
      let sorted := sortDescBy (·.confidence) results
      let bestResult := sorted.headD ⟨"none", .fin 0, 0⟩
      let finalConfidence :=
        if 1 < sorted.length then
          let n : ℝ := (sorted.length : ℝ)
          let avgLength :=
            jsDiv (sorted.foldl (fun a r => jsAdd a r.length) (.fin 0)) (.fin n)
          let variance :=
            jsDiv (sorted.foldl (fun a r =>
              jsAdd a (jsMul (jsSub r.length avgLength) (jsSub r.length avgLength)))
              (.fin 0)) (.fin n)
          let coefficientOfVariation := jsDiv (jsSqrt variance) avgLength
          if jsLt coefficientOfVariation (.fin 0.2) then
            min 0.95 (bestResult.confidence + 0.1)
          else if jsLt (.fin 0.5) coefficientOfVariation then
            max 0.1 (bestResult.confidence - 0.2)
          else bestResult.confidence
        else bestResult.confidence
      ⟨bestResult.length, bestResult.method, finalConfidence, sorted⟩

/-! ## Bend analyzer -/

/-- One bend-estimation method result (`bendCount`, `confidence`,
`method`). -/
structure BendMethodEstimate where
  bendCount : ℤ
  confidence : ℝ
  method : String

/-- `analyzeCurvature(meshes)`: `none` models `success: false`. -/
noncomputable def analyzeCurvature (meshes : List MeshM) : Option (ℤ × ℝ) :=
  match meshes with
  | [m] =>
    match m.geometry.position with
    | none => none
    | some ps =>
      if ps.length < 20 then none
      else
        let sampleCount := min 100 (ps.length / 5)
        let points := samplePath ps sampleCount
        let significantCurvatureChanges :=
          ((List.range points.length).filter (fun i =>
            2 ≤ i ∧ i + 2 < points.length ∧
            (let p1 := points.getD (i - 2) Vec3R.zero
             let p2 := points.getD (i - 1) Vec3R.zero
             let p3 := points.getD i Vec3R.zero
             let p4 := points.getD (i + 1) Vec3R.zero
             let p5 := points.getD (i + 2) Vec3R.zero
             let v1 := (p2.sub p1).normalize
             let v2 := (p3.sub p2).normalize
             let v3 := (p4.sub p3).normalize
             let v4 := (p5.sub p4).normalize
             let angle1 := v1.angleTo v2
             let angle2 := v2.angleTo v3
             let angle3 := v3.angleTo v4
             0.2 < |angle2 - angle1| + |angle3 - angle2|))).length
        some ((significantCurvatureChanges / 3 : ℕ),
          min 0.9 (0.5 + (sampleCount : ℝ) / 200))
  | _ => none

/-- `analyzeDirectionChanges(meshes)`. -/
noncomputable def analyzeDirectionChanges (meshes : List MeshM) :
    Option (ℤ × ℝ) :=
  match meshes with
  | [m] =>
    match m.geometry.position with
    | none => none
    | some ps =>
      if ps.length < 10 then none
      else
        let sampleCount := min 50 (ps.length / 8)
        let points := samplePath ps sampleCount
        let significantDirectionChanges :=
          ((List.range points.length).filter (fun i =>
            2 ≤ i ∧ i + 2 < points.length ∧
            (let dir1 := ((points.getD i Vec3R.zero).sub
              (points.getD (i - 2) Vec3R.zero)).normalize
             let dir2 := ((points.getD (i + 2) Vec3R.zero).sub
              (points.getD i Vec3R.zero)).normalize
             0.5 < dir1.angleTo dir2))).length
        some ((significantDirectionChanges / 2 : ℕ), 0.7)
  | _ => none

/-- `estimateBendsFromComplexity(totalVertices, totalTriangles)`. -/
noncomputable def estimateBendsFromComplexity (totalVertices : ℕ)
    (totalTriangles : ℝ) : ℤ :=
  if totalVertices < 100 then 0
  else
    let complexityScore := Real.log (totalVertices : ℝ) +
      Real.log (totalTriangles + 1)
    let estimatedBends :=
      if 8 < complexityScore then Int.floor ((complexityScore - 8) / 1.5) else 0
    min estimatedBends 10

/-- `Math.round` (half toward positive infinity). -/
noncomputable def jsRound (x : ℝ) : ℤ := Int.floor (x + 0.5)

/-- Result record of `analyzeBends`. -/
structure BendAnalysis where
  bendCount : ℤ
  totalVertices : ℕ
  totalTriangles : ℝ
  confidence : ℝ

/-- The slenderness ratio computed by `analyzeBends`: the longest
absolute bounding-box axis over the larger of the second axis and
`1e-3`, set only when a bounding size is given and its longest axis is
positive. -/
noncomputable def slenderRatioOf (boundingSize : Option Vec3R) : Option ℝ :=
  match boundingSize with
  | none => none
  | some s =>
    let dims : Vec3R := ⟨|s.x|, |s.y|, |s.z|⟩
    let longest := max3 dims
    let crossSpan := max (mid3 dims) (max (min3 dims) 1e-3)
    if 0 < longest then some (longest / crossSpan) else none

/-- The three successive slenderness guards of `analyzeBends`, applied to
the weighted estimate (`bendCount0`, `confidence0`). -/
noncomputable def applyBendGuards (slenderRatio : Option ℝ)
    (highest : BendMethodEstimate) (hasLowBendSignal : Bool)
    (curvConf dirConf : ℝ) (bendCount0 : ℤ) (confidence0 : ℝ) : ℤ × ℝ :=
  let step1 : ℤ × ℝ :=
    match slenderRatio with
    | some r =>
      if 10 < r then
        if highest.bendCount ≤ 1 then (highest.bendCount, highest.confidence)
        else if 18 < r ∧ highest.bendCount < bendCount0 then
          (highest.bendCount, highest.confidence)
        else (bendCount0, confidence0)
      else (bendCount0, confidence0)
    | none => (bendCount0, confidence0)
  let step2 : ℤ × ℝ :=
    match slenderRatio with
    | some r =>
      if 12 < r ∧ hasLowBendSignal = true then
        (if 18 < r then 0 else min step1.1 1, max (max curvConf dirConf) 0.5)
      else step1
    | none => step1
  match slenderRatio with
  | some r =>
    if 22 < r then
      if 30 < r then (0, min step2.2 0.6) else (min step2.1 1, step2.2)
    else step2
  | none => step2

/-- `analyzeBends(meshes, boundingSize)`: combine the curvature,
direction-change and complexity estimates, apply the slenderness guards,
and clamp the count to `[0, 20]`. -/
noncomputable def analyzeBends (meshes : List MeshM)
    (boundingSize : Option Vec3R) : BendAnalysis :=
  if meshes.isEmpty then ⟨0, 0, 0, 0⟩
  else
    let totalVertices := (meshes.map (fun m =>
      (m.geometry.position.getD []).length)).sum
    let totalTriangles := (meshes.map (fun m =>
      match m.geometry.index with
      | some idx => ((idx.length : ℝ)) / 3
      | none => 0)).sum
    let curvatureAnalysis := analyzeCurvature meshes
    let directionAnalysis := analyzeDirectionChanges meshes
    let methodEstimates : List BendMethodEstimate :=
      (match curvatureAnalysis with
       | some bc => [⟨bc.1, bc.2, "curvature"⟩]
       | none => []) ++
      (match directionAnalysis with
       | some bc => [⟨bc.1, bc.2, "direction"⟩]
       | none => []) ++
      [⟨estimateBendsFromComplexity totalVertices totalTriangles, 0.3,
        "complexity"⟩]
    let curvatureEstimate := methodEstimates.find? (fun m => m.method = "curvature")
    let directionEstimate := methodEstimates.find? (fun m => m.method = "direction")
    let slenderRatio := slenderRatioOf boundingSize
    let sortedMethods := sortDescBy (·.confidence) methodEstimates
    let sortedMethods : List BendMethodEstimate :=
      match slenderRatio with
      | some r =>
        if 8 < r then
          let filtered := sortedMethods.filter (fun m =>
            ¬(m.confidence < 0.5 ∧ 2 < m.bendCount))
          if filtered.isEmpty then sortedMethods else filtered
        else sortedMethods
      | none => sortedMethods
    let topMethods := sortedMethods.take 2
    let weightedSum := (topMethods.map (fun m =>
      (m.bendCount : ℝ) * m.confidence)).sum
    let totalWeight := (topMethods.map (·.confidence)).sum
    let highest := topMethods.headD ⟨0, 0, ""⟩
    let estimated := if 0 < totalWeight then weightedSum / totalWeight else 0
    let bendCount : ℤ := jsRound estimated
    let confidence := highest.confidence
    let hasLowBendSignal : Bool :=
      (match curvatureEstimate with
       | some m => decide (m.bendCount ≤ 1) | none => false) ||
      (match directionEstimate with
       | some m => decide (m.bendCount ≤ 1) | none => false)
    let guarded := applyBendGuards slenderRatio highest hasLowBendSignal
      (match curvatureEstimate with | some m => m.confidence | none => 0)
      (match directionEstimate with | some m => m.confidence | none => 0)
      bendCount confidence
    ⟨max 0 (min guarded.1 20), totalVertices, totalTriangles, guarded.2⟩

/-! ## Geometry analysis record (`analyzeGeometry`) -/

/-- The bounding-box part of the analysis record. -/
structure BBoxInfo where
  boxMin : Vec3R
  boxMax : Vec3R
  size : Vec3R

/-- `ParsedGeometry['analysis']`: optional fields are absent on the
empty-geometry early return. -/
structure GeoAnalysis where
  totalLength : JsNum
  estimatedBends : ℤ
  estimatedCuts : ℤ
  units : String
  originalUnits : Option String
  unitConfidence : Option ℝ
  lengthCalculationMethod : Option String
  lengthConfidence : Option ℝ
  boundingBox : BBoxInfo

/-- Union bounding box of the meshes that carry one (`overallBox`);
`none` models the still-empty `Box3`. -/
noncomputable def overallBoxOf (meshes : List MeshM) : Option Box3R :=
  meshes.foldl (fun acc m =>
    match m.geometry.boundingBox with
    | some b => match acc with | none => some b | some a => some (boxUnion a b)
    | none => acc) none

/-- `overallBox.getSize(...)`: the zero vector for the empty box. -/
noncomputable def overallSizeOf (meshes : List MeshM) : Vec3R :=
  match overallBoxOf meshes with
  | some b => boxSize b
  | none => Vec3R.zero

/-- `analyzeGeometry(meshes, detectedUnits, originalFile)`.

The units argument of `calculateTubeLengthMultiMethod` is never read in
its body, so the embedded version drops it; the conversion to
millimeters happens here with the validated `finalUnits`.  On the empty
mesh list the early return leaves every optional field absent and
applies the `detectedUnits || 'unknown'` fallback.  When no mesh has a
cached bounding box the union stays empty and its reported min/max are
modelled as zero vectors (JavaScript reports the infinite empty-box
corners there; no claim touches that corner). -/
noncomputable def analyzeGeometry (meshes : List MeshM)
    (detectedUnits : String) : GeoAnalysis :=
  if meshes.isEmpty then
    { totalLength := .fin 0
      estimatedBends := 0
      estimatedCuts := 2
      units := if detectedUnits = "" then "unknown" else detectedUnits
      originalUnits := none
      unitConfidence := none
      lengthCalculationMethod := none
      lengthConfidence := none
      boundingBox := ⟨Vec3R.zero, Vec3R.zero, Vec3R.zero⟩ }
  else
    let overallBox := overallBoxOf meshes
    let size := overallSizeOf meshes
    let unitValidation := validateUnitsAgainstGeometry detectedUnits size
    let finalUnits :=
      if unitValidation.isValid = false ∧
          (match unitValidation.suggestedUnit with
           | some s => decide (s ≠ "") | none => false) = true then
        unitValidation.suggestedUnit.getD detectedUnits
      else detectedUnits
    let bendAnalysis := analyzeBends meshes (some size)
    let estimatedBends := bendAnalysis.bendCount
    let estimatedCuts : ℤ :=
      if 3 < estimatedBends then 2 + Int.fdiv estimatedBends 3 else 2
    let lengthResults := calculateTubeLengthMultiMethod meshes size
    let lengthInMM := convertToMillimeters lengthResults.bestLength finalUnits
    { totalLength := lengthInMM
      estimatedBends := estimatedBends
      estimatedCuts := estimatedCuts
      units := "millimeter"
      originalUnits := some finalUnits
      unitConfidence := some unitValidation.confidence
      lengthCalculationMethod := some lengthResults.method
      lengthConfidence := some lengthResults.confidence
      boundingBox :=
        ⟨(overallBox.map Box3R.min).getD Vec3R.zero,
         (overallBox.map Box3R.max).getD Vec3R.zero, size⟩ }

/-! ## STEP/IGES parsing pipeline (`parseStepOrIges`) -/

/-- One decoded mesh entry as returned by the occt tessellator. -/
structure OcctMeshData where
  position : Option (List Vec3R)
  normal : Option (List Vec3R)
  index : Option (List ℕ)

/-- The alternative `result.root` data (absent fields give empty lists). -/
structure OcctRootData where
  vertices : List Vec3R
  indices : List ℕ

/-- The decoded result consumed by `parseStepOrIges`. -/
structure OcctResult where
  success : Bool
  unitsInfo : OcctUnitsInfo
  meshes : List OcctMeshData
  root : Option OcctRootData

/-- `CADParserOptions` (`scale` defaults to 1 and `centerGeometry` to
true in `parseCADFile`). -/
structure CADParserOptions where
  scale : ℝ
  centerGeometry : Bool

/-- `ParsedGeometry`: display meshes plus the analysis record. -/
structure ParsedGeometryM where
  meshes : List MeshM
  analysis : GeoAnalysis

/-- Scale every position by a factor (`BufferGeometry.scale`). -/
noncomputable def scalePositions (s : ℝ) (ps : List Vec3R) : List Vec3R :=
  ps.map (fun p => ⟨s * p.x, s * p.y, s * p.z⟩)

/-- `BufferGeometry.center()`: translate so the bounding-box center of
the current positions moves to the origin. -/
noncomputable def centerPositions (ps : List Vec3R) : List Vec3R :=
  let bb := computeBBox ps
  let c : Vec3R := (bb.min.add bb.max).smul 0.5
  ps.map (fun p => p.sub c)

/-- The analysis copy of one decoded mesh: original positions, original
indices, freshly computed bounding box (missing normals are computed in
the source but never read downstream, so they are not tracked).  Meshes
without a position buffer are skipped. -/
noncomputable def mkAnalysisGeometry (md : OcctMeshData) : Option BufferGeometryM :=
  match md.position with
  | none => none
  | some ps => some ⟨some ps, md.index, some (computeBBox ps)⟩

/-- The display copy in the main mesh path: auto-scale the largest
dimension to 10 when positive, always center, then apply the
user-requested scale when truthy and different from 1 (the cached
bounding box is the one computed after centering; the user scale is
applied without recomputation, as in the source). -/
noncomputable def mkDisplayGeometry (options : CADParserOptions)
    (g : BufferGeometryM) : BufferGeometryM :=
  let ps := g.position.getD []
  let size := boxSize (computeBBox ps)
  let maxSize := max3 size
  let ps1 := if 0 < maxSize then scalePositions (10 / maxSize) ps else ps
  let ps2 := centerPositions ps1
  let ps3 :=
    if options.scale ≠ 0 ∧ options.scale ≠ 1 then
      scalePositions options.scale ps2
    else ps2
  ⟨some ps3, g.index, some (computeBBox ps2)⟩

/-- The display copy in the `result.root` fallback path: user scale when
truthy and different from 1, then centering when requested (the bounding
box stays the original one cloned from the analysis copy). -/
noncomputable def mkRootDisplayGeometry (options : CADParserOptions)
    (g : BufferGeometryM) : BufferGeometryM :=
  let ps := g.position.getD []
  let ps1 :=
    if options.scale ≠ 0 ∧ options.scale ≠ 1 then
      scalePositions options.scale ps
    else ps
  let ps2 := if options.centerGeometry then centerPositions ps1 else ps1
  ⟨some ps2, g.index, g.boundingBox⟩

/-- `parseStepOrIges(file, fileType, options)` after the decoder has run:
`result` is the tessellator output and `stepFileUnits` the outcome of the
STEP-header scan of the original file (see `detectUnitsFromResult`).
Thrown errors become `Except.error`. -/
noncomputable def parseStepOrIges (result : OcctResult)
    (fileType : StepIgesKind) (stepFileUnits : Option String)
    (options : CADParserOptions) : Except String ParsedGeometryM :=
  if result.success = false then
    .error "Failed to parse file"
  else
    let detectedUnits := detectUnitsFromResult result.unitsInfo fileType
      stepFileUnits
    let processed := result.meshes.filterMap mkAnalysisGeometry
    let analysisMeshes : List MeshM := processed.map (fun g => ⟨g⟩)
    let displayMeshes : List MeshM :=
      processed.map (fun g => ⟨mkDisplayGeometry options g⟩)
    if analysisMeshes.isEmpty then
      match result.root with
      | some root =>
        if root.vertices.isEmpty then
          .error "No valid geometry found in file. The file may not contain renderable mesh data."
        else
          let gOrig : BufferGeometryM :=
            ⟨some root.vertices,
             (if root.indices.isEmpty then none else some root.indices),
             some (computeBBox root.vertices)⟩
          .ok ⟨[⟨mkRootDisplayGeometry options gOrig⟩],
            analyzeGeometry [⟨gOrig⟩] detectedUnits⟩
      | none =>
        .error "No valid geometry found in file. The file may not contain renderable mesh data."
    else
      .ok ⟨displayMeshes, analyzeGeometry analysisMeshes detectedUnits⟩

/-! ## C4: bend-count clamp and the extreme-slenderness guard -/

/-- Helper: past slenderness 30 the final guard forces a zero count and
caps the confidence at 0.6, whatever the earlier stages produced. -/
theorem applyBendGuards_slender30 (r : ℝ) (h30 : 30 < r)
    (highest : BendMethodEstimate) (sig : Bool) (cc dc : ℝ) (b : ℤ) (c : ℝ) :
    (applyBendGuards (some r) highest sig cc dc b c).1 = 0 ∧
    (applyBendGuards (some r) highest sig cc dc b c).2 ≤ 0.6 := by
  unfold applyBendGuards
  dsimp only
  rw [if_pos (show (22:ℝ) < r by linarith), if_pos h30]
  exact ⟨rfl, min_le_right _ _⟩

/-- C4: the bend analyzer always returns a count in `[0, 20]`, and for a
bounding box with a positive longest axis whose slenderness ratio
(longest axis over the larger of the second axis and `1e-3`) exceeds 30
it returns 0 bends with confidence at most 0.6. -/
theorem c4_bend_clamp_and_slenderness (meshes : List MeshM)
    (osize : Option Vec3R) (size : Vec3R) (r : ℝ)
    (hr : slenderRatioOf (some size) = some r) (h30 : 30 < r) :
    (0 ≤ (analyzeBends meshes osize).bendCount ∧
      (analyzeBends meshes osize).bendCount ≤ 20) ∧
    ((analyzeBends meshes (some size)).bendCount = 0 ∧
      (analyzeBends meshes (some size)).confidence ≤ 0.6) := by
  constructor
  · unfold analyzeBends
    split
    · exact ⟨le_refl 0, by norm_num⟩
    · dsimp only
      refine ⟨le_max_left 0 _, max_le (by norm_num) (min_le_right _ _)⟩
  · unfold analyzeBends
    split
    · exact ⟨rfl, by norm_num⟩
    · dsimp only
      rw [hr]
      constructor
      · rw [(applyBendGuards_slender30 r h30 _ _ _ _ _ _).1]
        norm_num
      · exact (applyBendGuards_slender30 r h30 _ _ _ _ _ _).2

/-- C4 witness: a slender 100 x 1 x 1 bounding box (ratio 100) on a
small concrete mesh. -/
theorem c4_bend_clamp_and_slenderness_witness :
    (slenderRatioOf (some ⟨100, 1, 1⟩) = some 100 ∧ (30:ℝ) < 100) ∧
    ((analyzeBends [⟨⟨some [⟨0, 0, 0⟩, ⟨100, 1, 1⟩], none, none⟩⟩]
        (some ⟨100, 1, 1⟩)).bendCount = 0 ∧
      (analyzeBends [⟨⟨some [⟨0, 0, 0⟩, ⟨100, 1, 1⟩], none, none⟩⟩]
        (some ⟨100, 1, 1⟩)).confidence ≤ 0.6) := by
  have hsl : slenderRatioOf (some (⟨100, 1, 1⟩ : Vec3R)) = some 100 := by
    unfold slenderRatioOf
    dsimp only
    rw [show max3 ⟨|(100:ℝ)|, |(1:ℝ)|, |(1:ℝ)|⟩ = 100 by
      unfold max3; norm_num]
    rw [show mid3 ⟨|(100:ℝ)|, |(1:ℝ)|, |(1:ℝ)|⟩ = 1 by
      unfold mid3; norm_num]
    rw [show min3 ⟨|(100:ℝ)|, |(1:ℝ)|, |(1:ℝ)|⟩ = 1 by
      unfold min3; norm_num]
    rw [if_pos (by norm_num : (0:ℝ) < 100)]
    norm_num
  exact ⟨⟨hsl, by norm_num⟩,
    (c4_bend_clamp_and_slenderness
      [⟨⟨some [⟨0, 0, 0⟩, ⟨100, 1, 1⟩], none, none⟩⟩]
      none ⟨100, 1, 1⟩ 100 hsl (by norm_num)).2⟩

/-! ## C7: geometry validation of detected units -/

/-- C7: for a detected unit with a typicality range, an in-range max
dimension validates with confidence
`max(0.3, min(0.95, 1 - |log10(D / typical)| / 2))`; an out-of-range max
dimension fails with confidence 0.1 and proposes the neighboring unit
(meter to millimeter and foot to inch when too small, millimeter to
meter and inch to foot when too large, centimeter to millimeter or
meter), and in `analyzeGeometry` the proposal overrides the detected
unit in the reported `originalUnits`. -/
theorem c7_unit_validation_and_override :
    (∀ (u : String) (rmin rmax rtyp : ℚ) (size : Vec3R),
      reasonableRanges (normalizeUnitName u) = some (rmin, rmax, rtyp) →
      (rmin : ℝ) ≤ max3 size → max3 size ≤ (rmax : ℝ) →
      validateUnitsAgainstGeometry u size =
        ⟨true, max 0.3 (min 0.95
          (1 - |Real.logb 10 (max3 size / (rtyp : ℝ))| / 2)), none⟩) ∧
    (∀ size : Vec3R, max3 size < 0.001 →
      validateUnitsAgainstGeometry "meter" size = ⟨false, 0.1, some "millimeter"⟩ ∧
      validateUnitsAgainstGeometry "foot" size = ⟨false, 0.1, some "inch"⟩) ∧
    (∀ size : Vec3R, max3 size < 0.01 →
      validateUnitsAgainstGeometry "centimeter" size =
        ⟨false, 0.1, some "millimeter"⟩) ∧
    (∀ size : Vec3R, 10000 < max3 size →
      validateUnitsAgainstGeometry "millimeter" size = ⟨false, 0.1, some "meter"⟩) ∧
    (∀ size : Vec3R, 1000 < max3 size →
      validateUnitsAgainstGeometry "inch" size = ⟨false, 0.1, some "foot"⟩ ∧
      validateUnitsAgainstGeometry "centimeter" size = ⟨false, 0.1, some "meter"⟩) ∧
    (∀ (meshes : List MeshM) (u s : String), meshes.isEmpty = false →
      (validateUnitsAgainstGeometry u (overallSizeOf meshes)).isValid = false →
      (validateUnitsAgainstGeometry u (overallSizeOf meshes)).suggestedUnit = some s →
      s ≠ "" →
      (analyzeGeometry meshes u).originalUnits = some s) := by
  refine ⟨?_, ?_, ?_, ?_, ?_, ?_⟩
  · intro u rmin rmax rtyp size hrange hlo hhi
    simp only [validateUnitsAgainstGeometry]
    rw [hrange]
    dsimp only
    rw [if_neg (by push_neg; exact ⟨by linarith, by linarith⟩)]
  · intro size h
    have hn : normalizeUnitName "meter" = "meter" := by decide
    have hn2 : normalizeUnitName "foot" = "foot" := by decide
    have hr : reasonableRanges "meter" = some (0.001, 100, 0.1) := by
      unfold reasonableRanges
      rw [if_neg (by decide), if_pos rfl]
    have hr2 : reasonableRanges "foot" = some (0.001, 100, 0.33) := by
      unfold reasonableRanges
      rw [if_neg (by decide), if_neg (by decide), if_neg (by decide), if_pos rfl]
    have hcast : ((0.001 : ℚ) : ℝ) = 0.001 := by norm_num
    constructor
    · simp only [validateUnitsAgainstGeometry]
      rw [hn, hr]
      dsimp only
      rw [if_pos (Or.inl (by rw [hcast]; exact h)),
        if_pos (by rw [hcast]; exact h), if_pos rfl]
    · simp only [validateUnitsAgainstGeometry]
      rw [hn2, hr2]
      dsimp only
      rw [if_pos (Or.inl (by rw [hcast]; exact h)),
        if_pos (by rw [hcast]; exact h), if_neg (by decide), if_pos rfl]
  · intro size h
    have hn : normalizeUnitName "centimeter" = "centimeter" := by decide
    have hr : reasonableRanges "centimeter" = some (0.01, 1000, 10) := by
      unfold reasonableRanges
      rw [if_neg (by decide), if_neg (by decide), if_neg (by decide),
        if_neg (by decide), if_pos rfl]
    have hcast : ((0.01 : ℚ) : ℝ) = 0.01 := by norm_num
    simp only [validateUnitsAgainstGeometry]
    rw [hn, hr]
    dsimp only
    rw [if_pos (Or.inl (by rw [hcast]; exact h)),
      if_pos (by rw [hcast]; exact h), if_neg (by decide), if_neg (by decide),
      if_pos rfl]
  · intro size h
    have hn : normalizeUnitName "millimeter" = "millimeter" := by decide
    have hr : reasonableRanges "millimeter" = some (0.1, 10000, 100) := by
      unfold reasonableRanges
      rw [if_pos rfl]
    have hc1 : ((0.1 : ℚ) : ℝ) = 0.1 := by norm_num
    have hc2 : ((10000 : ℚ) : ℝ) = 10000 := by norm_num
    simp only [validateUnitsAgainstGeometry]
    rw [hn, hr]
    dsimp only
    rw [if_pos (Or.inr (by rw [hc2]; exact h)),
      if_neg (by rw [hc1]; push_neg; linarith), if_pos rfl]
  · intro size h
    have hn : normalizeUnitName "inch" = "inch" := by decide
    have hncm : normalizeUnitName "centimeter" = "centimeter" := by decide
    have hr : reasonableRanges "inch" = some (0.01, 1000, 4) := by
      unfold reasonableRanges
      rw [if_neg (by decide), if_neg (by decide), if_pos rfl]
    have hrcm : reasonableRanges "centimeter" = some (0.01, 1000, 10) := by
      unfold reasonableRanges
      rw [if_neg (by decide), if_neg (by decide), if_neg (by decide),
        if_neg (by decide), if_pos rfl]
    have hc1 : ((0.01 : ℚ) : ℝ) = 0.01 := by norm_num
    have hc2 : ((1000 : ℚ) : ℝ) = 1000 := by norm_num
    constructor
    · simp only [validateUnitsAgainstGeometry]
      rw [hn, hr]
      dsimp only
      rw [if_pos (Or.inr (by rw [hc2]; exact h)),
        if_neg (by rw [hc1]; push_neg; linarith),
        if_neg (by decide), if_pos rfl]
    · simp only [validateUnitsAgainstGeometry]
      rw [hncm, hrcm]
      dsimp only
      rw [if_pos (Or.inr (by rw [hc2]; exact h)),
        if_neg (by rw [hc1]; push_neg; linarith),
        if_neg (by decide), if_neg (by decide), if_pos rfl]
  · intro meshes u s hne hinv hsug hs
    unfold analyzeGeometry
    rw [if_neg (by rw [hne]; exact Bool.false_ne_true)]
    dsimp only
    rw [hinv, hsug]
    rw [if_pos ⟨rfl, by simp [hs]⟩]
    simp

/-- C7 witness: an inch-detected part whose 4 x 1 x 1 bounding box sits in
the inch range. -/
theorem c7_unit_validation_and_override_witness :
    (reasonableRanges (normalizeUnitName "inch") = some (0.01, 1000, 4) ∧
     ((0.01 : ℚ) : ℝ) ≤ max3 ⟨4, 1, 1⟩ ∧ max3 ⟨4, 1, 1⟩ ≤ ((1000 : ℚ) : ℝ)) ∧
    validateUnitsAgainstGeometry "inch" ⟨4, 1, 1⟩ =
      ⟨true, max 0.3 (min 0.95
        (1 - |Real.logb 10 (max3 ⟨4, 1, 1⟩ / ((4 : ℚ) : ℝ))| / 2)), none⟩ := by
  have hrange : reasonableRanges (normalizeUnitName "inch") =
      some (0.01, 1000, 4) := by
    rw [show normalizeUnitName "inch" = "inch" from by decide]
    unfold reasonableRanges
    rw [if_neg (by decide), if_neg (by decide), if_pos rfl]
  have h1 : ((0.01 : ℚ) : ℝ) ≤ max3 ⟨4, 1, 1⟩ := by unfold max3; norm_num
  have h2 : max3 (⟨4, 1, 1⟩ : Vec3R) ≤ ((1000 : ℚ) : ℝ) := by
    unfold max3; norm_num
  exact ⟨⟨hrange, h1, h2⟩,
    c7_unit_validation_and_override.1 "inch" _ _ _ _ hrange h1 h2⟩

/-! ## C3: unit confidence reporting -/

/-- A mesh with bounding box `100 x 1 x 1` starting at the origin. -/
noncomputable def c3Mesh : MeshM :=
  ⟨⟨some [⟨0, 0, 0⟩, ⟨100, 1, 1⟩], none, some ⟨⟨0, 0, 0⟩, ⟨100, 1, 1⟩⟩⟩⟩

/-- Helper evaluation: the union size of the C3 mesh. -/
theorem c3Mesh_size : overallSizeOf [c3Mesh] = ⟨100, 1, 1⟩ := by
  unfold overallSizeOf overallBoxOf c3Mesh
  simp only [List.foldl_cons, List.foldl_nil]
  unfold boxSize Vec3R.sub
  norm_num

/-- Helper evaluation: validating millimeter against a `100 x 1 x 1` box
succeeds with confidence `0.95`. -/
theorem validate_mm_100 :
    validateUnitsAgainstGeometry "millimeter" ⟨100, 1, 1⟩ =
      ⟨true, 0.95, none⟩ := by
  simp only [validateUnitsAgainstGeometry]
  rw [show normalizeUnitName "millimeter" = "millimeter" from by decide]
  rw [show reasonableRanges "millimeter" = some (0.1, 10000, 100) from by
    unfold reasonableRanges; rw [if_pos rfl]]
  dsimp only
  have hmax : max3 (⟨100, 1, 1⟩ : Vec3R) = 100 := by unfold max3; norm_num
  rw [hmax]
  rw [if_neg (by push_neg; constructor <;> norm_num)]
  have : |Real.logb 10 ((100 : ℝ) / ((100 : ℚ) : ℝ))| = 0 := by
    norm_num [Real.logb_one]
  rw [this]
  norm_num

/-- C3 counterexample: with decoder metadata units `millimeter` present,
the resolver does return the normalized unit, but the reported unit
confidence at a `100 x 1 x 1` millimeter box is `0.95` (the geometry
validation confidence), not the claimed resolution-step confidence
`0.9`. -/
theorem c3_counterexample :
    detectUnitsFromResult ⟨some "millimeter", none, none⟩ .step none =
      "millimeter" ∧
    (analyzeGeometry [c3Mesh] "millimeter").unitConfidence = some 0.95 ∧
    (0.95 : ℝ) ≠ 0.9 := by
  refine ⟨by decide, ?_, by norm_num⟩
  unfold analyzeGeometry
  rw [if_neg (by simp [c3Mesh])]
  dsimp only
  rw [c3Mesh_size, validate_mm_100]

/-- C3 (amended): `detectUnitsFromResult` resolves only the unit string
(metadata units are normalized and returned when present and non-empty;
with no metadata, no STEP length unit and no STEP header match the
default is millimeter), and it attaches no confidence: the unit
confidence reported by `analyzeGeometry` is always the
geometry-validation confidence of `validateUnitsAgainstGeometry`,
whatever resolution step produced the unit. -/
theorem c3_unit_confidence_amended :
    (∀ (u : String) (mu lu : Option String) (ft : StepIgesKind)
        (scan : Option String), u ≠ "" →
      detectUnitsFromResult ⟨some u, mu, lu⟩ ft scan =
        normalizeUnitName (jsToLower u)) ∧
    (∀ ft : StepIgesKind,
      detectUnitsFromResult ⟨none, none, none⟩ ft none = "millimeter") ∧
    (∀ (meshes : List MeshM) (u : String), meshes.isEmpty = false →
      (analyzeGeometry meshes u).unitConfidence =
        some (validateUnitsAgainstGeometry u (overallSizeOf meshes)).confidence) := by
  refine ⟨?_, ?_, ?_⟩
  · intro u mu lu ft scan hu
    unfold detectUnitsFromResult
    dsimp only
    rw [if_pos hu]
  · intro ft
    cases ft <;> rfl
  · intro meshes u hne
    unfold analyzeGeometry
    rw [if_neg (by rw [hne]; exact Bool.false_ne_true)]

/-- C3 amended witness: metadata units `Inch` at a concrete geometry. -/
theorem c3_unit_confidence_amended_witness :
    ("Inch" ≠ "" ∧ ([c3Mesh] : List MeshM).isEmpty = false) ∧
    (detectUnitsFromResult ⟨some "Inch", none, none⟩ .iges none =
      normalizeUnitName (jsToLower "Inch") ∧
    (analyzeGeometry [c3Mesh] "inch").unitConfidence =
      some (validateUnitsAgainstGeometry "inch" (overallSizeOf [c3Mesh])).confidence) :=
  ⟨⟨by decide, by simp [c3Mesh]⟩,
   c3_unit_confidence_amended.1 "Inch" none none .iges none (by decide),
   c3_unit_confidence_amended.2.2 [c3Mesh] "inch" (by simp [c3Mesh])⟩

/-! ## C9: analysis independence from display options -/

/-- C9: for STEP and IGES inputs, the analysis record is computed from
the original unscaled, uncentered meshes: two runs of `parseStepOrIges`
on the same decoded file that differ only in the `scale` or
`centerGeometry` options yield the same outcome with identical analysis
records; the options affect only the returned display meshes. -/
theorem c9_analysis_ignores_display_options (result : OcctResult)
    (fileType : StepIgesKind) (stepFileUnits : Option String)
    (o1 o2 : CADParserOptions) :
    (parseStepOrIges result fileType stepFileUnits o1).map
        ParsedGeometryM.analysis =
      (parseStepOrIges result fileType stepFileUnits o2).map
        ParsedGeometryM.analysis := by
  unfold parseStepOrIges
  split
  · rfl
  · dsimp only
    split
    · cases result.root with
      | none => rfl
      | some root =>
        dsimp only
        split
        · rfl
        · rfl
    · rfl

/-! ## C8: medial-axis extraction -/

/-- The set of inner voxels with distance at least 2 that are *strict*
local maxima of the distance field within their 26-neighborhood (every
neighbor strictly smaller).  This follows the claim's wording and is
compared against the embedded `extractSkeletonVoxels`. -/
def strictMedialAxisVoxels (df : DistFieldM) : List SkeletonVoxel :=
  (innerCells df.dims).filterMap (fun c =>
    let d := df.val c.1 c.2.1 c.2.2
    if 2 ≤ d ∧ ∀ off ∈ neighborOffsets26,
        df.val ((c.1 : ℤ) + off.1).toNat ((c.2.1 : ℤ) + off.2.1).toNat
          ((c.2.2 : ℤ) + off.2.2).toNat < d then
      some ⟨c.1, c.2.1, c.2.2, d⟩
    else none)

/-- The set of inner voxels with distance at least 2 that are *weak*
local maxima (no neighbor strictly greater) - what the code computes. -/
def weakMedialAxisVoxels (df : DistFieldM) : List SkeletonVoxel :=
  (innerCells df.dims).filterMap (fun c =>
    let d := df.val c.1 c.2.1 c.2.2
    if 2 ≤ d ∧ ∀ off ∈ neighborOffsets26,
        df.val ((c.1 : ℤ) + off.1).toNat ((c.2.1 : ℤ) + off.2.1).toNat
          ((c.2.2 : ℤ) + off.2.2).toNat ≤ d then
      some ⟨c.1, c.2.1, c.2.2, d⟩
    else none)

/-- A plateau distance field: a 4 x 3 x 3 grid whose two inner voxels
both hold distance 2 (every other cell 0). -/
def plateauField : DistFieldM :=
  ⟨(4, 3, 3), fun x y z =>
    if (x = 1 ∨ x = 2) ∧ y = 1 ∧ z = 1 then 2 else 0⟩

/-- C8 counterexample: on the plateau field the extractor keeps both
inner voxels (each has an equal-valued neighbor, so neither is a strict
local maximum), while the strict-maxima set of the claim is empty; the
extractor output is not the strict set. -/
theorem c8_counterexample :
    extractSkeletonVoxels plateauField =
      [⟨1, 1, 1, 2⟩, ⟨2, 1, 1, 2⟩] ∧
    strictMedialAxisVoxels plateauField = [] ∧
    extractSkeletonVoxels plateauField ≠ strictMedialAxisVoxels plateauField := by
  refine ⟨by decide, by decide, by decide⟩

/-- Helper: a right fold of `&&` over a mapped predicate is `List.all`. -/
theorem foldl_band_eq_all {α : Type} (p : α → Bool) :
    ∀ (l : List α) (b : Bool), l.foldl (fun acc a => acc && p a) b = (b && l.all p)
  | [], b => by simp
  | a :: l, b => by
    simp only [List.foldl_cons, List.all_cons, foldl_band_eq_all p l]
    cases b <;> cases p a <;> simp

/-- Helper: the flag loop accepts exactly the weak local maxima. -/
theorem isLocalMaxFlag_iff (f : ℕ → ℕ → ℕ → ℕ∞) (x y z : ℕ) :
    isLocalMaxFlag f x y z = true ↔
      ∀ off ∈ neighborOffsets26,
        f ((x : ℤ) + off.1).toNat ((y : ℤ) + off.2.1).toNat
          ((z : ℤ) + off.2.2).toNat ≤ f x y z := by
  unfold isLocalMaxFlag
  rw [foldl_band_eq_all]
  simp [List.all_eq_true, not_lt]

/-- Helper: membership is preserved by the stable insertion. -/
theorem mem_insertDescBy {α : Type} (conf : α → ℝ) (x a : α) :
    ∀ l : List α, a ∈ insertDescBy conf x l ↔ a = x ∨ a ∈ l
  | [] => by simp [insertDescBy]
  | y :: ys => by
    unfold insertDescBy
    split
    · rw [List.mem_cons, mem_insertDescBy conf x a ys, List.mem_cons]
      tauto
    · rw [List.mem_cons]

/-- Helper: membership is preserved by the stable sort. -/
theorem mem_sortDescBy {α : Type} (conf : α → ℝ) (a : α) :
    ∀ l : List α, a ∈ sortDescBy conf l ↔ a ∈ l
  | [] => by simp [sortDescBy]
  | x :: xs => by
    unfold sortDescBy
    rw [mem_insertDescBy, mem_sortDescBy conf a xs]
    simp

/-- Helper: a list ending in a singleton is never empty. -/
theorem notIsEmptyAppendSingleton {α : Type} (A B : List α) (x : α) :
    ¬ ((A ++ B ++ [x]).isEmpty = true) := by
  simp [List.isEmpty_iff]

/-- C8 (amended): the extractor outputs exactly the inner voxels with
distance at least 2 that are local maxima in the *weak* sense (no
26-neighbor strictly greater; plateaus are kept, so the maxima need not
be strict), and whenever the resulting skeleton has fewer than 2 points
the skeletonization estimator fails and contributes no estimate to the
multi-method results. -/
theorem c8_medial_axis_amended :
    (∀ df : DistFieldM, extractSkeletonVoxels df = weakMedialAxisVoxels df) ∧
    (∀ meshes : List MeshM,
      (voxelsToPoints
        (extractSkeletonVoxels (computeDistanceTransform
          (createVoxelGrid (samplePointsFromMeshes meshes 3000))))
        (createVoxelGrid (samplePointsFromMeshes meshes 3000)).bounds
        (createVoxelGrid (samplePointsFromMeshes meshes 3000)).resolution).length < 2 →
      extractCenterlineBy3DSkeletonization meshes =
        (⟨[], 0, 0⟩ : SkeletonizationResult) ∧
      ∀ (size : Vec3R) (r : LengthEstimate),
        r ∈ (calculateTubeLengthMultiMethod meshes size).allResults →
        r.method ≠ "3D Skeletonization") := by
  constructor
  · intro df
    unfold extractSkeletonVoxels weakMedialAxisVoxels
    apply List.filterMap_congr
    intro c _
    dsimp only
    by_cases h2 : df.val c.1 c.2.1 c.2.2 < 2
    · rw [if_pos h2, if_neg]
      rintro ⟨hle, -⟩
      exact absurd h2 (not_lt.mpr hle)
    · rw [if_neg h2]
      by_cases hm : isLocalMaxFlag df.val c.1 c.2.1 c.2.2
      · rw [if_pos hm, if_pos ⟨not_lt.mp h2, (isLocalMaxFlag_iff _ _ _ _).mp hm⟩]
      · rw [if_neg hm, if_neg]
        rintro ⟨-, hall⟩
        exact hm ((isLocalMaxFlag_iff _ _ _ _).mpr hall)
  · intro meshes hlen
    have hskel : extractCenterlineBy3DSkeletonization meshes =
        (⟨[], 0, 0⟩ : SkeletonizationResult) := by
      simp only [extractCenterlineBy3DSkeletonization]
      rw [if_pos hlen]
      simp only [ite_self]
    refine ⟨hskel, ?_⟩
    intro size r hmem
    simp only [calculateTubeLengthMultiMethod] at hmem
    by_cases hemp : meshes.isEmpty
    · rw [if_pos hemp] at hmem
      simp at hmem
    · rw [if_neg hemp] at hmem
      rw [hskel] at hmem
      rw [if_neg (by norm_num : ¬ ((0:ℝ) < (⟨[], 0, 0⟩ :
        SkeletonizationResult).length))] at hmem
      simp only [List.nil_append] at hmem
      rw [if_neg (notIsEmptyAppendSingleton _ _ _)] at hmem
      dsimp only at hmem
      rw [mem_sortDescBy] at hmem
      simp only [List.mem_append, List.mem_singleton] at hmem
      rcases hmem with (h | h) | h
      · by_cases hp : 0 < estimateCenterlineLengthBySlicing meshes
        · rw [if_pos hp] at h
          simp only [List.mem_singleton] at h
          subst h
          dsimp only
          decide
        · rw [if_neg hp] at h
          exact absurd h (List.not_mem_nil r)
      · by_cases hp : 0 < calculatePathLength meshes
        · rw [if_pos hp] at h
          simp only [List.mem_singleton] at h
          subst h
          dsimp only
          decide
        · rw [if_neg hp] at h
          exact absurd h (List.not_mem_nil r)
      · by_cases hb : (mid3 size + min3 size) / 2 * 3 < max3 size
        · rw [if_pos hb] at h
          subst h
          dsimp only
          decide
        · rw [if_neg hb] at h
          subst h
          dsimp only
          decide

/-- Witness for C8: on an empty mesh list the sampled point set is empty,
the skeleton has fewer than 2 points, and the skeletonization estimator
fails. -/
theorem c8_medial_axis_amended_witness :
    extractCenterlineBy3DSkeletonization [] =
      (⟨[], 0, 0⟩ : SkeletonizationResult) := by
  refine (c8_medial_axis_amended.2 [] ?_).1
  have hpts : samplePointsFromMeshes [] 3000 = [] := by
    simp [samplePointsFromMeshes]
  rw [hpts]
  have hdims : (createVoxelGrid []).dims = (0, 0, 0) := by
    simp only [createVoxelGrid, computeBBox, boxSize, max3, Vec3R.sub,
      Vec3R.zero]
    norm_num
  have hskel0 : extractSkeletonVoxels (computeDistanceTransform
      (createVoxelGrid [])) = [] := by
    simp only [extractSkeletonVoxels, computeDistanceTransform]
    rw [hdims]
    rfl
  rw [hskel0]
  simp [voxelsToPoints]

/-! ## C1: the length invariant and the degenerate bounding box -/

/-- A non-empty mesh whose five vertices coincide: its bounding box has
max dimension 0. -/
noncomputable def c1Mesh : MeshM :=
  ⟨⟨some (List.replicate 5 ⟨1, 2, 3⟩), none, some ⟨⟨1, 2, 3⟩, ⟨1, 2, 3⟩⟩⟩⟩

/-- Sampling the degenerate mesh yields exactly its 5 vertices, for any
target count. -/
theorem c1_sample_len (t : ℕ) : (samplePointsFromMeshes [c1Mesh] t).length = 5 := by
  have hdiv : 5 / (50 ⊔ t) = 0 :=
    Nat.div_eq_of_lt (lt_of_lt_of_le (by norm_num) (le_max_left _ _))
  simp only [samplePointsFromMeshes, c1Mesh]
  rw [if_neg (by simp)]
  simp [List.flatMap, strideCount, hdiv]

/-- The union bounding box of the degenerate mesh is a point box. -/
theorem c1_size_eval : overallSizeOf [c1Mesh] = Vec3R.zero := by
  simp only [overallSizeOf, overallBoxOf, c1Mesh, List.foldl, boxSize, Vec3R.sub,
    Vec3R.zero]
  norm_num

/-- The skeletonization estimator fails on the degenerate mesh (5 samples
is below the 50-sample gate). -/
theorem c1_skel_eval :
    extractCenterlineBy3DSkeletonization [c1Mesh] =
      (⟨[], 0, 0⟩ : SkeletonizationResult) := by
  simp only [extractCenterlineBy3DSkeletonization]
  rw [if_neg (by simp [c1Mesh])]
  rw [if_pos (by rw [c1_sample_len]; norm_num)]

/-- The PCA slicing estimator fails on the degenerate mesh (5 samples is
below the 10-point gate). -/
theorem c1_pca_eval : estimateCenterlineLengthBySlicing [c1Mesh] = 0 := by
  simp only [estimateCenterlineLengthBySlicing]
  rw [if_pos (by rw [c1_sample_len]; norm_num)]

/-- The path estimator fails on the degenerate mesh (5 vertices is below
the 10-vertex gate). -/
theorem c1_path_eval : calculatePathLength [c1Mesh] = 0 := by
  simp only [calculatePathLength, c1Mesh]
  norm_num

/-- On the degenerate mesh only the bounding-box fallback contributes,
and its non-slender branch computes `0 * max(1, sqrt(0 / 0)) = NaN`. -/
theorem c1_multi_eval :
    calculateTubeLengthMultiMethod [c1Mesh] Vec3R.zero =
      ⟨.nan, "Bounding Box", 0.2, [⟨"Bounding Box", .nan, 0.2⟩]⟩ := by
  simp only [calculateTubeLengthMultiMethod]
  rw [if_neg (by simp [c1Mesh])]
  rw [c1_skel_eval, c1_pca_eval, c1_path_eval]
  have hmax : max3 Vec3R.zero = 0 := by simp [max3, Vec3R.zero]
  have hmid : mid3 Vec3R.zero = 0 := by simp [mid3, Vec3R.zero]
  have hmin : min3 Vec3R.zero = 0 := by simp [min3, Vec3R.zero]
  rw [hmax, hmid, hmin]
  norm_num [jsDiv, jsSqrt, jsMax, jsMul, sortDescBy, insertDescBy]

/-- The unit validation of "millimeter" against a zero bounding size is
invalid (max dimension 0 is below 0.1 mm) and suggests "millimeter"
itself. -/
theorem c1_validate_eval :
    validateUnitsAgainstGeometry "millimeter" Vec3R.zero =
      ⟨false, 0.1, some "millimeter"⟩ := by
  have hn : normalizeUnitName "millimeter" = "millimeter" := by decide
  simp only [validateUnitsAgainstGeometry, hn, reasonableRanges]
  have hmax : max3 Vec3R.zero = 0 := by simp [max3, Vec3R.zero]
  rw [hmax]
  norm_num
  decide

/-- The full analysis of the degenerate mesh reports a NaN total length
under method "Bounding Box". -/
theorem c1_analysis_eval :
    (analyzeGeometry [c1Mesh] "millimeter").totalLength = .nan ∧
    (analyzeGeometry [c1Mesh] "millimeter").lengthCalculationMethod =
      some "Bounding Box" := by
  simp only [analyzeGeometry]
  rw [if_neg (by simp [c1Mesh])]
  rw [c1_size_eval, c1_validate_eval, c1_multi_eval]
  have hn : normalizeUnitName "millimeter" = "millimeter" := by decide
  constructor
  · simp only []
    norm_num [convertToMillimeters, hn, mmFactor, jsMul]
  · norm_num

/-- C1: the claim that every analysis result has a non-negative finite
total length, 0 exactly under method "none", fails: on a non-empty mesh
set whose bounding box has max dimension 0 the bounding-box fallback
computes `0 * max(1, sqrt(0 / 0))`, so the analysis reports NaN (neither
finite nor 0) under method "Bounding Box", not "none". -/
theorem c1_counterexample :
    [c1Mesh].isEmpty = false ∧
    max3 (overallSizeOf [c1Mesh]) = 0 ∧
    ¬ (analyzeGeometry [c1Mesh] "millimeter").totalLength.isFiniteNum ∧
    (analyzeGeometry [c1Mesh] "millimeter").lengthCalculationMethod ≠
      some "none" ∧
    (analyzeGeometry [c1Mesh] "millimeter").totalLength ≠ .fin 0 := by
  refine ⟨by simp [c1Mesh], ?_, ?_, ?_, ?_⟩
  · rw [c1_size_eval]; simp [max3, Vec3R.zero]
  · rw [c1_analysis_eval.1]; simp [JsNum.isFiniteNum]
  · rw [c1_analysis_eval.2]; simp
  · rw [c1_analysis_eval.1]; simp

/-- C1 (amended): the multi-method calculator returns 0 with method
"none" exactly on the empty-mesh path, where the analysis record carries
total length 0 and no length method; a non-empty mesh set whose bounding
box has max dimension 0 instead reaches the bounding-box fallback, whose
degenerate branch produces NaN with method "Bounding Box". -/
theorem c1_length_invariant_amended :
    (∀ size : Vec3R, calculateTubeLengthMultiMethod [] size =
      ⟨.fin 0, "none", 0, []⟩) ∧
    (∀ units : String, (analyzeGeometry [] units).totalLength = .fin 0 ∧
      (analyzeGeometry [] units).lengthCalculationMethod = none) ∧
    max3 (overallSizeOf [c1Mesh]) = 0 ∧
    (analyzeGeometry [c1Mesh] "millimeter").totalLength = .nan ∧
    (analyzeGeometry [c1Mesh] "millimeter").lengthCalculationMethod =
      some "Bounding Box" := by
  refine ⟨?_, ?_, ?_, c1_analysis_eval.1, c1_analysis_eval.2⟩
  · intro size
    simp [calculateTubeLengthMultiMethod]
  · intro units
    constructor <;> simp [analyzeGeometry]
  · rw [c1_size_eval]; simp [max3, Vec3R.zero]
